import Mathlib

/-!
Verification development for the SAM.gov Africa ingestion pipeline.

This file gives a shallow embedding, in Lean, of the ingestion and
identity-resolution core of the repository: the region classifiers of
`sam_utils.py` (`CountryManager.is_african_country`), of
`download_and_update.py` (`filter_african_rows.row_matches`,
`standardize_country_code`) and of `bootstrap_historical.py`
(`filter_african_rows.row_matches`, `standardize_country_code`,
`fix_sam_gov_links`), the date normalizer
(`DatabaseManager.normalize_posted_date`), the identity resolution
(`ensure_notice_id_column` with its SHA-1 based `make_hash`), and the three
write paths (`DatabaseManager.insert_or_update_batch` and the two
`insert_new_rows_chunk` functions).

Machine-level Python behaviours are modelled explicitly: `str.strip`,
`str.lower`, `str.upper`, `str.isalpha`, the `in` substring test, UTF-8
encoding and SHA-1 are all defined below as executable Lean functions.
-/

namespace SamAfrica

/-! ### Models of the Python string primitives -/

/-- Whitespace characters removed by Python `str.strip()`. -/
def isPyWs (c : Char) : Bool :=
  c == ' ' || c == '\t' || c == '\n' || c == '\r' || c == '\x0b' || c == '\x0c'

/-- `str.strip()` on a character list. -/
def pyStripL (l : List Char) : List Char :=
  ((l.dropWhile isPyWs).reverse.dropWhile isPyWs).reverse

/-- Model of Python `str.strip()`. -/
def pyStrip (s : String) : String := String.mk (pyStripL s.toList)

/-- Model of Python `str.lower()` on one character (ASCII plus the
Latin-1 uppercase letters that occur in the country tables). -/
def pyLowerChar (c : Char) : Char :=
  if ('A' ≤ c && c ≤ 'Z') || ('\xc0' ≤ c && c ≤ '\xde' && c != '\xd7') then
    Char.ofNat (c.toNat + 32)
  else c

/-- Model of Python `str.upper()` on one character (ASCII plus the
Latin-1 lowercase letters that occur in the country tables). -/
def pyUpperChar (c : Char) : Char :=
  if ('a' ≤ c && c ≤ 'z') || ('\xe0' ≤ c && c ≤ '\xfe' && c != '\xf7') then
    Char.ofNat (c.toNat - 32)
  else c

/-- Model of Python `str.lower()`. -/
def pyLower (s : String) : String := String.mk (s.toList.map pyLowerChar)

/-- Model of Python `str.upper()`. -/
def pyUpper (s : String) : String := String.mk (s.toList.map pyUpperChar)

/-- Model of Python `str.isalpha()` for one character, restricted to the
Latin-1 range that can occur in the data. -/
def isPyAlpha (c : Char) : Bool :=
  ('A' ≤ c && c ≤ 'Z') || ('a' ≤ c && c ≤ 'z') ||
    ('\xc0' ≤ c && c ≤ '\xff' && c != '\xd7' && c != '\xf7')

/-- `containsSubL pat s`: the Python substring test `pat in s`, on lists. -/
def containsSubL (pat : List Char) : List Char → Bool
  | [] => pat.isEmpty
  | c :: rest => pat.isPrefixOf (c :: rest) || containsSubL pat rest

/-- Model of the Python substring test `pat in s`. -/
def containsSub (pat s : String) : Bool := containsSubL pat.toList s.toList

/-- The Python test `c in s` for one character. -/
def strContainsChar (s : String) (c : Char) : Bool := s.toList.contains c

/-- Lexicographic comparison of character lists by code point, the order
Python uses for `str < str`. -/
def charListLt : List Char → List Char → Bool
  | [], [] => false
  | [], _ :: _ => true
  | _ :: _, [] => false
  | a :: as, b :: bs =>
    decide (a.toNat < b.toNat) || (a.toNat == b.toNat && charListLt as bs)

/-- Model of Python `a < b` on strings. -/
def pyStrLt (a b : String) : Bool := charListLt a.toList b.toList

/-- Split on a single separator character, keeping empty pieces — the
behaviour of Python `s.split(sep)` for a one-character separator. -/
def splitOnCharAux (sep : Char) : List Char → List Char → List (List Char)
  | [], acc => [acc.reverse]
  | c :: rest, acc =>
    if c == sep then acc.reverse :: splitOnCharAux sep rest []
    else splitOnCharAux sep rest (c :: acc)

/-- Model of Python `s.split(sep)` for a one-character separator. -/
def pySplit (s : String) (sep : Char) : List String :=
  (splitOnCharAux sep s.toList []).map String.mk

/-- Model of Python `s.startswith(pre)`. -/
def pyStartsWith (pre s : String) : Bool := pre.toList.isPrefixOf s.toList

/-- Model of Python `s[:n]`. -/
def pyTake (s : String) (n : Nat) : String := String.mk (s.toList.take n)

/-! ### The country tables, transcribed from the three source files -/
def sam_african_countries : List (String × String) := [
  ("ALGERIA", "DZA"),
  ("EGYPT", "EGY"),
  ("LIBYA", "LBY"),
  ("MOROCCO", "MAR"),
  ("SUDAN", "SDN"),
  ("TUNISIA", "TUN"),
  ("BENIN", "BEN"),
  ("BURKINA FASO", "BFA"),
  ("CAPE VERDE", "CPV"),
  ("C\xd4TE D\x27IVOIRE", "CIV"),
  ("GAMBIA", "GMB"),
  ("GHANA", "GHA"),
  ("GUINEA", "GIN"),
  ("GUINEA-BISSAU", "GNB"),
  ("LIBERIA", "LBR"),
  ("MALI", "MLI"),
  ("MAURITANIA", "MRT"),
  ("NIGER", "NER"),
  ("NIGERIA", "NGA"),
  ("SENEGAL", "SEN"),
  ("SIERRA LEONE", "SLE"),
  ("TOGO", "TGO"),
  ("ANGOLA", "AGO"),
  ("CAMEROON", "CMR"),
  ("CENTRAL AFRICAN REPUBLIC", "CAF"),
  ("CHAD", "TCD"),
  ("CONGO", "COG"),
  ("DEMOCRATIC REPUBLIC OF THE CONGO", "COD"),
  ("EQUATORIAL GUINEA", "GNQ"),
  ("GABON", "GAB"),
  ("S\xc3O TOM\xc9 AND PR\xcdNCIPE", "STP"),
  ("BURUNDI", "BDI"),
  ("COMOROS", "COM"),
  ("DJIBOUTI", "DJI"),
  ("ERITREA", "ERI"),
  ("ETHIOPIA", "ETH"),
  ("KENYA", "KEN"),
  ("MADAGASCAR", "MDG"),
  ("MALAWI", "MWI"),
  ("MAURITIUS", "MUS"),
  ("MOZAMBIQUE", "MOZ"),
  ("RWANDA", "RWA"),
  ("SEYCHELLES", "SYC"),
  ("SOMALIA", "SOM"),
  ("SOUTH SUDAN", "SSD"),
  ("TANZANIA", "TZA"),
  ("UGANDA", "UGA"),
  ("ZAMBIA", "ZMB"),
  ("ZIMBABWE", "ZWE"),
  ("BOTSWANA", "BWA"),
  ("ESWATINI", "SWZ"),
  ("LESOTHO", "LSO"),
  ("NAMIBIA", "NAM"),
  ("SOUTH AFRICA", "ZAF")
]

def sam_alternative_names : List (String × String) := [
  ("CABO VERDE", "CPV"),
  ("CAPE VERDE ISLANDS", "CPV"),
  ("IVORY COAST", "CIV"),
  ("COTE D\x27IVOIRE", "CIV"),
  ("COTE DIVOIRE", "CIV"),
  ("DRC", "COD"),
  ("DR CONGO", "COD"),
  ("DEMOCRATIC REP OF CONGO", "COD"),
  ("DEMOCRATIC REPUBLIC OF CONGO", "COD"),
  ("CONGO, DEMOCRATIC REPUBLIC", "COD"),
  ("CONGO-KINSHASA", "COD"),
  ("CONGO KINSHASA", "COD"),
  ("CONGO-BRAZZAVILLE", "COG"),
  ("CONGO BRAZZAVILLE", "COG"),
  ("REPUBLIC OF THE CONGO", "COG"),
  ("CONGO, REPUBLIC OF", "COG"),
  ("SAO TOME AND PRINCIPE", "STP"),
  ("SAO TOME & PRINCIPE", "STP"),
  ("SAO TOME", "STP"),
  ("SWAZILAND", "SWZ"),
  ("KINGDOM OF ESWATINI", "SWZ"),
  ("THE GAMBIA", "GMB"),
  ("GAMBIA, THE", "GMB"),
  ("GUINEE", "GIN"),
  ("GUINEA BISSAU", "GNB"),
  ("GUINEE-BISSAU", "GNB"),
  ("GUINEE BISSAU", "GNB"),
  ("TANZANIE", "TZA"),
  ("UNITED REPUBLIC OF TANZANIA", "TZA"),
  ("REPUBLIQUE CENTRAFRICAINE", "CAF"),
  ("CAR", "CAF"),
  ("CENTRAL AFRICAN REP", "CAF"),
  ("RSA", "ZAF"),
  ("REPUBLIC OF SOUTH AFRICA", "ZAF"),
  ("SOUTH SUDAN, REPUBLIC OF", "SSD"),
  ("REPUBLIC OF SOUTH SUDAN", "SSD")
]

def daily_african_countries : List (String × String) := [
  ("ALGERIA", "DZA"),
  ("ANGOLA", "AGO"),
  ("BENIN", "BEN"),
  ("BOTSWANA", "BWA"),
  ("BURKINA FASO", "BFA"),
  ("BURUNDI", "BDI"),
  ("CABO VERDE", "CPV"),
  ("CAMEROON", "CMR"),
  ("CENTRAL AFRICAN REPUBLIC", "CAF"),
  ("CHAD", "TCD"),
  ("COMOROS", "COM"),
  ("CONGO", "COG"),
  ("DEMOCRATIC REPUBLIC OF THE CONGO", "COD"),
  ("DJIBOUTI", "DJI"),
  ("EGYPT", "EGY"),
  ("EQUATORIAL GUINEA", "GNQ"),
  ("ERITREA", "ERI"),
  ("ESWATINI", "SWZ"),
  ("ETHIOPIA", "ETH"),
  ("GABON", "GAB"),
  ("GAMBIA", "GMB"),
  ("GHANA", "GHA"),
  ("GUINEA", "GIN"),
  ("GUINEA-BISSAU", "GNB"),
  ("IVORY COAST", "CIV"),
  ("KENYA", "KEN"),
  ("LESOTHO", "LSO"),
  ("LIBERIA", "LBR"),
  ("LIBYA", "LBY"),
  ("MADAGASCAR", "MDG"),
  ("MALAWI", "MWI"),
  ("MALI", "MLI"),
  ("MAURITANIA", "MRT"),
  ("MAURITIUS", "MUS"),
  ("MOROCCO", "MAR"),
  ("MOZAMBIQUE", "MOZ"),
  ("NAMIBIA", "NAM"),
  ("NIGER", "NER"),
  ("NIGERIA", "NGA"),
  ("RWANDA", "RWA"),
  ("SAO TOME AND PRINCIPE", "STP"),
  ("SENEGAL", "SEN"),
  ("SEYCHELLES", "SYC"),
  ("SIERRA LEONE", "SLE"),
  ("SOMALIA", "SOM"),
  ("SOUTH AFRICA", "ZAF"),
  ("SOUTH SUDAN", "SSD"),
  ("SUDAN", "SDN"),
  ("TANZANIA", "TZA"),
  ("TOGO", "TGO"),
  ("TUNISIA", "TUN"),
  ("UGANDA", "UGA"),
  ("ZAMBIA", "ZMB"),
  ("ZIMBABWE", "ZWE")
]

def daily_africa_mappings : List (String × String) := [
  ("algeria", "DZA"),
  ("dza", "DZA"),
  ("alg\xe9rie", "DZA"),
  ("angola", "AGO"),
  ("ago", "AGO"),
  ("benin", "BEN"),
  ("ben", "BEN"),
  ("b\xe9nin", "BEN"),
  ("botswana", "BWA"),
  ("bwa", "BWA"),
  ("burkina faso", "BFA"),
  ("bfa", "BFA"),
  ("burkina", "BFA"),
  ("burundi", "BDI"),
  ("bdi", "BDI"),
  ("cabo verde", "CPV"),
  ("cpv", "CPV"),
  ("cape verde", "CPV"),
  ("cameroon", "CMR"),
  ("cmr", "CMR"),
  ("cameroun", "CMR"),
  ("central african republic", "CAF"),
  ("caf", "CAF"),
  ("car", "CAF"),
  ("chad", "TCD"),
  ("tcd", "TCD"),
  ("tchad", "TCD"),
  ("comoros", "COM"),
  ("com", "COM"),
  ("comores", "COM"),
  ("congo", "COG"),
  ("cog", "COG"),
  ("congo-brazzaville", "COG"),
  ("republic of congo", "COG"),
  ("democratic republic of the congo", "COD"),
  ("cod", "COD"),
  ("drc", "COD"),
  ("dr congo", "COD"),
  ("congo-kinshasa", "COD"),
  ("djibouti", "DJI"),
  ("dji", "DJI"),
  ("egypt", "EGY"),
  ("egy", "EGY"),
  ("equatorial guinea", "GNQ"),
  ("gnq", "GNQ"),
  ("eritrea", "ERI"),
  ("eri", "ERI"),
  ("eswatini", "SWZ"),
  ("swz", "SWZ"),
  ("swaziland", "SWZ"),
  ("ethiopia", "ETH"),
  ("eth", "ETH"),
  ("gabon", "GAB"),
  ("gab", "GAB"),
  ("gambia", "GMB"),
  ("gmb", "GMB"),
  ("the gambia", "GMB"),
  ("ghana", "GHA"),
  ("gha", "GHA"),
  ("guinea", "GIN"),
  ("gin", "GIN"),
  ("guin\xe9e", "GIN"),
  ("guinea-bissau", "GNB"),
  ("gnb", "GNB"),
  ("guinea bissau", "GNB"),
  ("ivory coast", "CIV"),
  ("civ", "CIV"),
  ("c\xf4te d\x27ivoire", "CIV"),
  ("cote d\x27ivoire", "CIV"),
  ("kenya", "KEN"),
  ("ken", "KEN"),
  ("lesotho", "LSO"),
  ("lso", "LSO"),
  ("liberia", "LBR"),
  ("lbr", "LBR"),
  ("libya", "LBY"),
  ("lby", "LBY"),
  ("madagascar", "MDG"),
  ("mdg", "MDG"),
  ("malawi", "MWI"),
  ("mwi", "MWI"),
  ("mali", "MLI"),
  ("mli", "MLI"),
  ("mauritania", "MRT"),
  ("mrt", "MRT"),
  ("mauritius", "MUS"),
  ("mus", "MUS"),
  ("morocco", "MAR"),
  ("mar", "MAR"),
  ("maroc", "MAR"),
  ("mozambique", "MOZ"),
  ("moz", "MOZ"),
  ("namibia", "NAM"),
  ("nam", "NAM"),
  ("niger", "NER"),
  ("ner", "NER"),
  ("nigeria", "NGA"),
  ("nga", "NGA"),
  ("rwanda", "RWA"),
  ("rwa", "RWA"),
  ("s\xe3o tom\xe9 and pr\xedncipe", "STP"),
  ("stp", "STP"),
  ("sao tome and principe", "STP"),
  ("senegal", "SEN"),
  ("sen", "SEN"),
  ("s\xe9n\xe9gal", "SEN"),
  ("seychelles", "SYC"),
  ("syc", "SYC"),
  ("sierra leone", "SLE"),
  ("sle", "SLE"),
  ("somalia", "SOM"),
  ("som", "SOM"),
  ("south africa", "ZAF"),
  ("zaf", "ZAF"),
  ("rsa", "ZAF"),
  ("south sudan", "SSD"),
  ("ssd", "SSD"),
  ("sudan", "SDN"),
  ("sdn", "SDN"),
  ("tanzania", "TZA"),
  ("tza", "TZA"),
  ("togo", "TGO"),
  ("tgo", "TGO"),
  ("tunisia", "TUN"),
  ("tun", "TUN"),
  ("tunisie", "TUN"),
  ("uganda", "UGA"),
  ("uga", "UGA"),
  ("zambia", "ZMB"),
  ("zmb", "ZMB"),
  ("zimbabwe", "ZWE"),
  ("zwe", "ZWE")
]

def id_candidates_norm : List String := [
  "documentid",
  "noticeid",
  "noticeidno",
  "noticeidnumber",
  "opportunityid",
  "referenceid",
  "referencenumber",
  "refid",
  "solicitationid",
  "solicitationnumber",
  "solnumber"
]

def boot_africa_mappings : List (String × String) := [
  ("algeria", "DZA"),
  ("dza", "DZA"),
  ("alg\xe9rie", "DZA"),
  ("people\x27s democratic republic of algeria", "DZA"),
  ("angola", "AGO"),
  ("ago", "AGO"),
  ("republic of angola", "AGO"),
  ("benin", "BEN"),
  ("ben", "BEN"),
  ("b\xe9nin", "BEN"),
  ("republic of benin", "BEN"),
  ("botswana", "BWA"),
  ("bwa", "BWA"),
  ("republic of botswana", "BWA"),
  ("burkina faso", "BFA"),
  ("bfa", "BFA"),
  ("burkina", "BFA"),
  ("burundi", "BDI"),
  ("bdi", "BDI"),
  ("republic of burundi", "BDI"),
  ("cabo verde", "CPV"),
  ("cpv", "CPV"),
  ("cape verde", "CPV"),
  ("republic of cabo verde", "CPV"),
  ("cameroon", "CMR"),
  ("cmr", "CMR"),
  ("cameroun", "CMR"),
  ("republic of cameroon", "CMR"),
  ("central african republic", "CAF"),
  ("caf", "CAF"),
  ("car", "CAF"),
  ("centrafrique", "CAF"),
  ("chad", "TCD"),
  ("tcd", "TCD"),
  ("tchad", "TCD"),
  ("republic of chad", "TCD"),
  ("comoros", "COM"),
  ("com", "COM"),
  ("comores", "COM"),
  ("union of the comoros", "COM"),
  ("congo", "COG"),
  ("cog", "COG"),
  ("congo-brazzaville", "COG"),
  ("republic of the congo", "COG"),
  ("congo brazzaville", "COG"),
  ("democratic republic of the congo", "COD"),
  ("cod", "COD"),
  ("drc", "COD"),
  ("congo-kinshasa", "COD"),
  ("dr congo", "COD"),
  ("congo kinshasa", "COD"),
  ("zaire", "COD"),
  ("djibouti", "DJI"),
  ("dji", "DJI"),
  ("republic of djibouti", "DJI"),
  ("egypt", "EGY"),
  ("egy", "EGY"),
  ("arab republic of egypt", "EGY"),
  ("misr", "EGY"),
  ("equatorial guinea", "GNQ"),
  ("gnq", "GNQ"),
  ("guinea ecuatorial", "GNQ"),
  ("eritrea", "ERI"),
  ("eri", "ERI"),
  ("state of eritrea", "ERI"),
  ("eswatini", "SWZ"),
  ("swz", "SWZ"),
  ("swaziland", "SWZ"),
  ("kingdom of eswatini", "SWZ"),
  ("ethiopia", "ETH"),
  ("eth", "ETH"),
  ("federal democratic republic of ethiopia", "ETH"),
  ("gabon", "GAB"),
  ("gab", "GAB"),
  ("gabonese republic", "GAB"),
  ("gambia", "GMB"),
  ("gmb", "GMB"),
  ("the gambia", "GMB"),
  ("republic of the gambia", "GMB"),
  ("ghana", "GHA"),
  ("gha", "GHA"),
  ("republic of ghana", "GHA"),
  ("guinea", "GIN"),
  ("gin", "GIN"),
  ("guin\xe9e", "GIN"),
  ("republic of guinea", "GIN"),
  ("guinea-bissau", "GNB"),
  ("gnb", "GNB"),
  ("guinea bissau", "GNB"),
  ("guin\xe9e-bissau", "GNB"),
  ("ivory coast", "CIV"),
  ("civ", "CIV"),
  ("c\xf4te d\x27ivoire", "CIV"),
  ("cote d\x27ivoire", "CIV"),
  ("cote divoire", "CIV"),
  ("kenya", "KEN"),
  ("ken", "KEN"),
  ("republic of kenya", "KEN"),
  ("lesotho", "LSO"),
  ("lso", "LSO"),
  ("kingdom of lesotho", "LSO"),
  ("liberia", "LBR"),
  ("lbr", "LBR"),
  ("republic of liberia", "LBR"),
  ("libya", "LBY"),
  ("lby", "LBY"),
  ("state of libya", "LBY"),
  ("madagascar", "MDG"),
  ("mdg", "MDG"),
  ("republic of madagascar", "MDG"),
  ("malawi", "MWI"),
  ("mwi", "MWI"),
  ("republic of malawi", "MWI"),
  ("mali", "MLI"),
  ("mli", "MLI"),
  ("republic of mali", "MLI"),
  ("mauritania", "MRT"),
  ("mrt", "MRT"),
  ("mauritanie", "MRT"),
  ("islamic republic of mauritania", "MRT"),
  ("mauritius", "MUS"),
  ("mus", "MUS"),
  ("republic of mauritius", "MUS"),
  ("morocco", "MAR"),
  ("mar", "MAR"),
  ("maroc", "MAR"),
  ("kingdom of morocco", "MAR"),
  ("mozambique", "MOZ"),
  ("moz", "MOZ"),
  ("mo\xe7ambique", "MOZ"),
  ("republic of mozambique", "MOZ"),
  ("namibia", "NAM"),
  ("nam", "NAM"),
  ("republic of namibia", "NAM"),
  ("niger", "NER"),
  ("ner", "NER"),
  ("republic of niger", "NER"),
  ("nigeria", "NGA"),
  ("nga", "NGA"),
  ("federal republic of nigeria", "NGA"),
  ("rwanda", "RWA"),
  ("rwa", "RWA"),
  ("republic of rwanda", "RWA"),
  ("s\xe3o tom\xe9 and pr\xedncipe", "STP"),
  ("stp", "STP"),
  ("sao tome and principe", "STP"),
  ("s\xe3o tom\xe9", "STP"),
  ("senegal", "SEN"),
  ("sen", "SEN"),
  ("s\xe9n\xe9gal", "SEN"),
  ("republic of senegal", "SEN"),
  ("seychelles", "SYC"),
  ("syc", "SYC"),
  ("republic of seychelles", "SYC"),
  ("sierra leone", "SLE"),
  ("sle", "SLE"),
  ("republic of sierra leone", "SLE"),
  ("somalia", "SOM"),
  ("som", "SOM"),
  ("federal republic of somalia", "SOM"),
  ("south africa", "ZAF"),
  ("zaf", "ZAF"),
  ("republic of south africa", "ZAF"),
  ("rsa", "ZAF"),
  ("south sudan", "SSD"),
  ("ssd", "SSD"),
  ("republic of south sudan", "SSD"),
  ("sudan", "SDN"),
  ("sdn", "SDN"),
  ("republic of the sudan", "SDN"),
  ("tanzania", "TZA"),
  ("tza", "TZA"),
  ("united republic of tanzania", "TZA"),
  ("tanganyika", "TZA"),
  ("togo", "TGO"),
  ("tgo", "TGO"),
  ("togolese republic", "TGO"),
  ("tunisia", "TUN"),
  ("tun", "TUN"),
  ("tunisie", "TUN"),
  ("republic of tunisia", "TUN"),
  ("uganda", "UGA"),
  ("uga", "UGA"),
  ("republic of uganda", "UGA"),
  ("zambia", "ZMB"),
  ("zmb", "ZMB"),
  ("republic of zambia", "ZMB"),
  ("zimbabwe", "ZWE"),
  ("zwe", "ZWE"),
  ("republic of zimbabwe", "ZWE")
]

def boot_africa_iso3 : List String := [
  "DZA",
  "AGO",
  "BEN",
  "BWA",
  "BFA",
  "BDI",
  "CPV",
  "CMR",
  "CAF",
  "TCD",
  "COM",
  "COG",
  "COD",
  "DJI",
  "EGY",
  "GNQ",
  "ERI",
  "SWZ",
  "ETH",
  "GAB",
  "GMB",
  "GHA",
  "GIN",
  "GNB",
  "CIV",
  "KEN",
  "LSO",
  "LBR",
  "LBY",
  "MDG",
  "MWI",
  "MLI",
  "MRT",
  "MUS",
  "MAR",
  "MOZ",
  "NAM",
  "NER",
  "NGA",
  "RWA",
  "STP",
  "SEN",
  "SYC",
  "SLE",
  "SOM",
  "ZAF",
  "SSD",
  "SDN",
  "TZA",
  "TGO",
  "TUN",
  "UGA",
  "ZMB",
  "ZWE"
]

/-! ### Region classification, `sam_utils.py` (`CountryManager`) -/

/-- `CountryManager.iso3_codes`: the set of African ISO3 codes (the values of
`AFRICAN_COUNTRIES`). -/
def sam_iso3_codes : List String := sam_african_countries.map (·.2)

/-- `CountryManager.all_lookups` keys: upper-cased country names plus
upper-cased alternative names (ISO codes are deliberately not added). -/
def sam_all_lookup_keys : List String :=
  sam_african_countries.map (fun kv => pyUpper kv.1) ++
    sam_alternative_names.map (fun kv => pyUpper kv.1)

/-- The non-country tokens rejected by `is_african_country`. -/
def nonCountryTokens : List String := ["NONE", "NULL", "N/A", "UNKNOWN", ""]

/-- Is `c` an ASCII uppercase letter (the regex class `[A-Z]`)? -/
def isUpperAZ (c : Char) : Bool := 'A' ≤ c && c ≤ 'Z'

/-- Model of `re.search(r'\(([A-Z]{3})\)', s)`: scan for the first
parenthesised three-uppercase-letter group. -/
def parenIso : List Char → Option String
  | [] => none
  | '(' :: rest =>
    match rest with
    | a :: b :: c :: ')' :: _ =>
      if isUpperAZ a && isUpperAZ b && isUpperAZ c then some (String.mk [a, b, c])
      else parenIso rest
    | _ => parenIso rest
  | _ :: rest => parenIso rest

/-- `CountryManager.is_african_country` from `sam_utils.py`: empty/NaN guard,
non-country tokens, the three-letter ISO branch, the parenthesised ISO branch,
the exact lookup, then two-directional partial matching for candidates longer
than three characters. -/
def is_african_country (value : String) : Bool :=
  if value == "" then false
  else
    let vc := pyStrip (pyUpper value)
    if nonCountryTokens.contains vc then false
    else if vc.length == 3 && vc.toList.all isPyAlpha then sam_iso3_codes.contains vc
    else
      match (if strContainsChar vc '(' && strContainsChar vc ')' then parenIso vc.toList else none) with
      | some code => sam_iso3_codes.contains code
      | none =>
        if sam_all_lookup_keys.contains vc then true
        else if 3 < vc.length then
          sam_african_countries.any (fun kv => containsSub kv.1 vc || containsSub vc kv.1) ||
            sam_alternative_names.any (fun kv => containsSub kv.1 vc || containsSub vc kv.1)
        else false

/-! ### Region classification, `download_and_update.py` -/

/-- `AFRICA_ISO3` of `download_and_update.py` (values of its
`AFRICAN_COUNTRIES`). -/
def daily_iso3 : List String := daily_african_countries.map (·.2)

/-- `filter_african_rows.row_matches` from `download_and_update.py`, taking the
raw `PopCountry` and `CountryCode` values of one row.  The source returns
`True` from the first succeeding stage; that return structure is rendered as a
disjunction. -/
def row_matches_daily (popRaw ccRaw : String) : Bool :=
  let pop := pyStrip popRaw
  let cc := pyStrip ccRaw
  let popLower := pyLower pop
  let ccLower := pyLower cc
  (daily_iso3.contains (pyUpper cc) || daily_iso3.contains (pyUpper pop)) ||
  (daily_africa_mappings.any (fun kv => kv.1 == popLower) ||
    daily_africa_mappings.any (fun kv => kv.1 == ccLower)) ||
  (daily_africa_mappings.any (fun kv => containsSub kv.1 popLower || containsSub kv.1 ccLower)) ||
  (daily_iso3.any (fun iso => containsSub iso (pyUpper pop) || containsSub iso (pyUpper cc)))

/-- `format_country_display` from `download_and_update.py`. -/
def format_country_display (iso : String) : String :=
  match daily_african_countries.find? (fun kv => kv.2 == iso) with
  | some kv => kv.1 ++ " (" ++ kv.2 ++ ")"
  | none => iso

/-- `standardize_country_code` from `download_and_update.py`: exact ISO code,
exact mapping lookup, then first partial mapping match; otherwise the value is
returned unchanged. -/
def standardize_country_code_daily (value : String) : String :=
  if value == "" then value
  else
    let cleaned := pyLower (pyStrip value)
    if daily_iso3.contains (pyUpper cleaned) then format_country_display (pyUpper cleaned)
    else
      match daily_africa_mappings.find? (fun kv => kv.1 == cleaned) with
      | some kv => format_country_display kv.2
      | none =>
        match daily_africa_mappings.find? (fun kv => containsSub kv.1 cleaned) with
        | some kv => format_country_display kv.2
        | none => value

/-! ### Region classification, `bootstrap_historical.py` -/

/-- `filter_african_rows.row_matches` from `bootstrap_historical.py`: like the
daily one but over its own mapping table and without the ISO-substring
stage. -/
def row_matches_boot (popRaw ccRaw : String) : Bool :=
  let pop := pyStrip popRaw
  let cc := pyStrip ccRaw
  let popLower := pyLower pop
  let ccLower := pyLower cc
  (boot_africa_iso3.contains (pyUpper cc) || boot_africa_iso3.contains (pyUpper pop)) ||
  (boot_africa_mappings.any (fun kv => kv.1 == popLower) ||
    boot_africa_mappings.any (fun kv => kv.1 == ccLower)) ||
  (boot_africa_mappings.any (fun kv => containsSub kv.1 popLower || containsSub kv.1 ccLower))

/-- `standardize_country_code` from `bootstrap_historical.py`: exact ISO code,
exact mapping lookup; otherwise the value is returned unchanged (the source
comments "will be filtered out later"). -/
def standardize_country_code_boot (value : String) : String :=
  if value == "" then value
  else
    let cleaned := pyLower (pyStrip value)
    if boot_africa_iso3.contains (pyUpper cleaned) then pyUpper cleaned
    else
      match boot_africa_mappings.find? (fun kv => kv.1 == cleaned) with
      | some kv => kv.2
      | none => value
/-! ### Date normalization, `DatabaseManager.normalize_posted_date` -/

/-- Numeric value of a digit character. -/
def charDigit (c : Char) : Nat := c.toNat - 48

/-- The regex `^\d{4}-\d{2}-\d{2}$` on a character list. -/
def isDateShapeL : List Char → Bool
  | [y1, y2, y3, y4, h1, m1, m2, h2, d1, d2] =>
    y1.isDigit && y2.isDigit && y3.isDigit && y4.isDigit && h1 == '-' &&
      m1.isDigit && m2.isDigit && h2 == '-' && d1.isDigit && d2.isDigit
  | _ => false

/-- The regex `^\d{4}-\d{2}-\d{2}$` used by `normalize_posted_date`. -/
def isDateShape (s : String) : Bool := isDateShapeL s.toList

/-- Gregorian leap year. -/
def isLeapYear (y : Nat) : Bool := (y % 4 == 0 && y % 100 != 0) || y % 400 == 0

/-- Days in a month of the Gregorian calendar. -/
def daysInMonth (y m : Nat) : Nat :=
  if m == 2 then (if isLeapYear y then 29 else 28)
  else if m == 4 || m == 6 || m == 9 || m == 11 then 30
  else 31

/-- One decimal digit as a character (callers pass values below ten). -/
def digitChar : Nat → Char
  | 0 => '0' | 1 => '1' | 2 => '2' | 3 => '3' | 4 => '4'
  | 5 => '5' | 6 => '6' | 7 => '7' | 8 => '8' | _ => '9'

/-- Two-digit zero-padded rendering (for `%m`, `%d`). -/
def fmt2 (n : Nat) : List Char := [digitChar (n / 10 % 10), digitChar (n % 10)]

/-- Four-digit zero-padded rendering (for `%Y` within `Timestamp` bounds). -/
def fmt4 (n : Nat) : List Char :=
  [digitChar (n / 1000 % 10), digitChar (n / 100 % 10), digitChar (n / 10 % 10),
    digitChar (n % 10)]

/-- `Timestamp.strftime('%Y-%m-%d')`. -/
def fmtDate (y m d : Nat) : String := String.mk (fmt4 y ++ '-' :: (fmt2 m ++ '-' :: fmt2 d))

/-- A time suffix accepted after an ISO date: nothing, or `'T'`/`' '` followed
by clock characters. -/
def validTimeTail : List Char → Bool
  | [] => true
  | c :: rest => (c == 'T' || c == ' ') && rest.all (fun ch => ch.isDigit || ch == ':' || ch == '.')

/-- ISO branch of the pandas parser model: `YYYY-MM-DD` with an optional time
suffix, with calendar validation (invalid month/day coerces to `NaT`). -/
def isoParseYmd : List Char → Option (Nat × Nat × Nat)
  | y1 :: y2 :: y3 :: y4 :: '-' :: m1 :: m2 :: '-' :: d1 :: d2 :: rest =>
    if y1.isDigit && y2.isDigit && y3.isDigit && y4.isDigit && m1.isDigit && m2.isDigit &&
        d1.isDigit && d2.isDigit && validTimeTail rest then
      let y := ((charDigit y1 * 10 + charDigit y2) * 10 + charDigit y3) * 10 + charDigit y4
      let m := charDigit m1 * 10 + charDigit m2
      let d := charDigit d1 * 10 + charDigit d2
      if 1 ≤ m && m ≤ 12 && 1 ≤ d && d ≤ daysInMonth y m then some (y, m, d)
      else none
    else none
  | _ => none

/-- Nat value of a digit list. -/
def natOfDigits (l : List Char) : Nat := l.foldl (fun a c => a * 10 + charDigit c) 0

/-- Slash branch of the pandas parser model: month-first `M/D/YYYY` (pandas
defaults to `dayfirst=False`), with calendar validation. -/
def slashParseYmd (l : List Char) : Option (Nat × Nat × Nat) :=
  match splitOnCharAux '/' l [] with
  | [mp, dp, yp] =>
    if 1 ≤ mp.length && mp.length ≤ 2 && 1 ≤ dp.length && dp.length ≤ 2 &&
        yp.length == 4 && mp.all Char.isDigit && dp.all Char.isDigit && yp.all Char.isDigit then
      let m := natOfDigits mp
      let d := natOfDigits dp
      let y := natOfDigits yp
      if 1 ≤ m && m ≤ 12 && 1 ≤ d && d ≤ daysInMonth y m then some (y, m, d)
      else none
    else none
  | _ => none

/-- Modelled from the external library: `pd.to_datetime(s, errors='coerce')`
followed by `strftime('%Y-%m-%d')`.  The model recognises ISO dates with an
optional time suffix and month-first slash dates, and coerces everything else
(including calendar-invalid dates) to `NaT`, i.e. `none`. -/
def pd_to_datetime_ymd (s : String) : Option (Nat × Nat × Nat) :=
  match isoParseYmd s.toList with
  | some x => some x
  | none => slashParseYmd s.toList

/-- The formatted result of the pandas fallback branch. -/
def pd_to_datetime_str (s : String) : Option String :=
  (pd_to_datetime_ymd s).map (fun x => fmtDate x.1 x.2.1 x.2.2)

/-- `DatabaseManager.normalize_posted_date` from `sam_utils.py`: empty guard,
strip, the already-normalized regex branch, the split-on-space branch, then
the pandas fallback; unparseable input yields `none`. -/
def normalize_posted_date (s : String) : Option String :=
  if s == "" then none
  else if isDateShape (pyStrip s) then some (pyStrip s)
  else
    match (if strContainsChar (pyStrip s) ' ' then
        (if isDateShape ((pySplit (pyStrip s) ' ').headD "") then
          some ((pySplit (pyStrip s) ' ').headD "")
        else none)
      else none) with
    | some dp => some dp
    | none => pd_to_datetime_str (pyStrip s)

/-- A string that denotes a real calendar date in canonical `YYYY-MM-DD`
form: the shape holds and month and day are within calendar range. -/
def isCalendarDateStr (s : String) : Bool :=
  match s.toList with
  | [y1, y2, y3, y4, h1, m1, m2, h2, d1, d2] =>
    y1.isDigit && y2.isDigit && y3.isDigit && y4.isDigit && h1 == '-' &&
      m1.isDigit && m2.isDigit && h2 == '-' && d1.isDigit && d2.isDigit &&
      (let y := ((charDigit y1 * 10 + charDigit y2) * 10 + charDigit y3) * 10 + charDigit y4
       let m := charDigit m1 * 10 + charDigit m2
       let d := charDigit d1 * 10 + charDigit d2
       1 ≤ m && m ≤ 12 && 1 ≤ d && d ≤ daysInMonth y m)
  | _ => false
/-! ### Identity resolution (`ensure_notice_id_column` of both scripts) -/

/-- `norm` from `download_and_update.py`/`bootstrap_historical.py`:
`re.sub(r"[^a-z0-9]+", "", s.lower())`. -/
def colNorm (s : String) : String :=
  String.mk ((pyLower s).toList.filter (fun c => ('a' ≤ c && c ≤ 'z') || ('0' ≤ c && c ≤ '9')))

/-- The test applied to a normalized column name in `ensure_notice_id_column`:
membership in `ID_CANDIDATES_NORM` or containment of one of the three
identifier substrings. -/
def is_id_candidate (key : String) : Bool :=
  id_candidates_norm.contains key || containsSub "noticeid" key ||
    containsSub "documentid" key || containsSub "opportunityid" key

/-- `normalized_map = {norm(c): c for c in df.columns}`: a Python dict keeps
the first insertion position of a key and the last assigned value. -/
def normalized_map (cols : List String) : List (String × String) :=
  cols.foldl
    (fun m c =>
      let k := colNorm c
      if m.any (fun kv => kv.1 == k) then m.map (fun kv => if kv.1 == k then (k, c) else kv)
      else m ++ [(k, c)])
    []

/-- A raw record as the pipeline sees it: a mapping from source column name to
string value. -/
abbrev ARow : Type := List (String × String)

/-- `row.get(k)` wrapped in `str(... or "")`: the column's value, or the empty
string when the column is absent. -/
def aget (r : ARow) (k : String) : String :=
  match r.find? (fun kv => kv.1 == k) with
  | some kv => kv.2
  | none => ""

/-- `"|".join(parts)` on character lists. -/
def joinPipe : List String → List Char
  | [] => []
  | [p] => p.toList
  | p :: q :: rest => p.toList ++ '|' :: joinPipe (q :: rest)

/-! UTF-8 and SHA-1, modelling `s.encode("utf-8", errors="ignore")` and
`hashlib.sha1(...).hexdigest()`. -/

/-- UTF-8 encoding of one character. -/
def utf8Char (c : Char) : List Nat :=
  let n := c.toNat
  if n < 128 then [n]
  else if n < 2048 then [192 + n / 64, 128 + n % 64]
  else if n < 65536 then [224 + n / 4096, 128 + n / 64 % 64, 128 + n % 64]
  else [240 + n / 262144, 128 + n / 4096 % 64, 128 + n / 64 % 64, 128 + n % 64]

/-- UTF-8 encoding of a character list as a byte list. -/
def utf8Bytes (l : List Char) : List Nat := (l.map utf8Char).flatten

/-- Truncation to a 32-bit word. -/
def w32 (n : Nat) : Nat := n % 4294967296

/-- 32-bit left rotation of a word. -/
def rotl32 (x k : Nat) : Nat := w32 (x * 2 ^ k + x / 2 ^ (32 - k))

/-- The SHA-1 round function. -/
def sha1F (t b c d : Nat) : Nat :=
  if t < 20 then (b &&& c) ||| ((b ^^^ 4294967295) &&& d)
  else if t < 40 then b ^^^ c ^^^ d
  else if t < 60 then (b &&& c) ||| (b &&& d) ||| (c &&& d)
  else b ^^^ c ^^^ d

/-- The SHA-1 round constants. -/
def sha1K (t : Nat) : Nat :=
  if t < 20 then 1518500249
  else if t < 40 then 1859775393
  else if t < 60 then 2400959708
  else 3395469782

/-- Big-endian eight-byte rendering of the bit length. -/
def beBytes8 (n : Nat) : List Nat :=
  [n / 2 ^ 56 % 256, n / 2 ^ 48 % 256, n / 2 ^ 40 % 256, n / 2 ^ 32 % 256,
    n / 2 ^ 24 % 256, n / 2 ^ 16 % 256, n / 2 ^ 8 % 256, n % 256]

/-- SHA-1 message padding. -/
def sha1Pad (msg : List Nat) : List Nat :=
  let len := msg.length
  let zeros := (120 - (len + 1) % 64) % 64
  msg ++ 128 :: (List.replicate zeros 0 ++ beBytes8 (len * 8))

/-- Big-endian 32-bit words of a byte list. -/
def toWords : List Nat → List Nat
  | a :: b :: c :: d :: rest => (((a * 256 + b) * 256 + c) * 256 + d) :: toWords rest
  | _ => []

/-- One step of the SHA-1 message-schedule extension. -/
def extendStep (ws : List Nat) : List Nat :=
  let n := ws.length
  ws ++ [rotl32 ((ws.getD (n - 3) 0 ^^^ ws.getD (n - 8) 0) ^^^
    (ws.getD (n - 14) 0 ^^^ ws.getD (n - 16) 0)) 1]

/-- Iterated message-schedule extension (64 steps extend 16 words to 80). -/
def sha1Extend : Nat → List Nat → List Nat
  | 0, ws => ws
  | n + 1, ws => sha1Extend n (extendStep ws)

/-- The SHA-1 state. -/
abbrev H5 : Type := Nat × Nat × Nat × Nat × Nat

/-- The eighty SHA-1 rounds (the first argument is the round index, the third
the remaining round count). -/
def sha1Rounds (t : Nat) (ws : List Nat) : Nat → H5 → H5
  | 0, st => st
  | n + 1, (a, b, c, d, e) =>
    let temp := w32 (rotl32 a 5 + sha1F t b c d + e + sha1K t + ws.getD t 0)
    sha1Rounds (t + 1) ws n (temp, a, rotl32 b 30, c, d)

/-- Compression of one 64-byte block. -/
def sha1Block (h : H5) (block : List Nat) : H5 :=
  let ws := sha1Extend 64 (toWords block)
  match h, sha1Rounds 0 ws 80 h with
  | (h0, h1, h2, h3, h4), (a, b, c, d, e) =>
    (w32 (h0 + a), w32 (h1 + b), w32 (h2 + c), w32 (h3 + d), w32 (h4 + e))

/-- Block iteration (the fuel is an upper bound on the block count). -/
def sha1Go : Nat → H5 → List Nat → H5
  | 0, h, _ => h
  | _ + 1, h, [] => h
  | fuel + 1, h, bytes => sha1Go fuel (sha1Block h (bytes.take 64)) (bytes.drop 64)

/-- The SHA-1 initial state. -/
def sha1Init : H5 := (1732584193, 4023233417, 2562383102, 271733878, 3285377520)

/-- The SHA-1 digest of a byte list, as five 32-bit words. -/
def sha1Words (msg : List Nat) : H5 :=
  let p := sha1Pad msg
  sha1Go (p.length) sha1Init p

/-- One lowercase hexadecimal digit. -/
def hexDigitChar : Nat → Char
  | 0 => '0' | 1 => '1' | 2 => '2' | 3 => '3' | 4 => '4' | 5 => '5' | 6 => '6'
  | 7 => '7' | 8 => '8' | 9 => '9' | 10 => 'a' | 11 => 'b' | 12 => 'c' | 13 => 'd'
  | 14 => 'e' | _ => 'f'

/-- Lowercase hexadecimal rendering of one 32-bit word. -/
def wordHex (w : Nat) : List Char :=
  [hexDigitChar (w / 2 ^ 28 % 16), hexDigitChar (w / 2 ^ 24 % 16),
    hexDigitChar (w / 2 ^ 20 % 16), hexDigitChar (w / 2 ^ 16 % 16),
    hexDigitChar (w / 2 ^ 12 % 16), hexDigitChar (w / 2 ^ 8 % 16),
    hexDigitChar (w / 2 ^ 4 % 16), hexDigitChar (w % 16)]

/-- `hashlib.sha1(bytes).hexdigest()`. -/
def sha1Hex (msg : List Nat) : String :=
  match sha1Words msg with
  | (a, b, c, d, e) =>
    String.mk (wordHex a ++ wordHex b ++ wordHex c ++ wordHex d ++ wordHex e)

/-- Model of `str(row.to_dict())`, the fallback hashed when the joined parts
strip to the empty string.  (The join of seven parts always contains `'|'`,
so this branch is dead code; see `joinPipe_strip_ne_nil`.) -/
def dictReprChars (r : ARow) : List Char :=
  ('{' :: (String.intercalate ", " (r.map (fun kv => "\x27" ++ kv.1 ++ "\x27: \x27" ++ kv.2 ++ "\x27"))).toList) ++ ['}']

/-- `make_hash` from `ensure_notice_id_column` (identical in
`download_and_update.py` and `bootstrap_historical.py`): join the seven
stable fields with `"|"`, strip, fall back to the row's dict repr when empty,
then the truncated SHA-1 hex digest. -/
def make_hash (r : ARow) : String :=
  let parts := [aget r "Title", aget r "PostedDate", aget r "Type", aget r "Link",
    aget r "AwardNumber", aget r "CountryCode", aget r "PopCountry"]
  let sChars := pyStripL (joinPipe parts)
  let sChars := if sChars.isEmpty then dictReprChars r else sChars
  pyTake (sha1Hex (utf8Bytes sChars)) 24

/-- `ensure_notice_id_column`, per row: keep an existing `NoticeID` column,
else copy the first identifier-like column, else synthesize `make_hash`. -/
def ensure_notice_id (cols : List String) (r : ARow) : String :=
  if cols.contains "NoticeID" then aget r "NoticeID"
  else
    match (normalized_map cols).find? (fun kv => is_id_candidate kv.1) with
    | some kv => aget r kv.2
    | none => make_hash r
/-! ### Records and the three write paths -/

/-- An incoming record, carrying the retained columns of the recognized
schema (the field `oppType` renders the source column `Type`).  `noticeId` is
the value of the identifier column when the chunk has one (`NoticeID`, or an
identifier-like column found by `ensure_notice_id_column`, `astype(str)`
applied), and `none` when the chunk has no identifier-like column. -/
structure Rec where
  noticeId : Option String
  title : String
  postedDate : String
  oppType : String
  link : String
  awardNumber : String
  countryCode : String
  popCountry : String
  description : String
deriving DecidableEq, Repr

/-- The seven-field view that `make_hash` reads, plus `Description`. -/
def recToARow (r : Rec) : ARow :=
  [("Title", r.title), ("PostedDate", r.postedDate), ("Type", r.oppType),
    ("Link", r.link), ("AwardNumber", r.awardNumber), ("CountryCode", r.countryCode),
    ("PopCountry", r.popCountry), ("Description", r.description)]

/-- Row-level rendering of `ensure_notice_id_column`: the identifier column's
value when one exists, otherwise the synthesized hash. -/
def resolve_notice_id (r : Rec) : String :=
  match r.noticeId with
  | some v => v
  | none => make_hash (recToARow r)

/-- The outcome of one write, §4.4 of the specification. -/
inductive Outcome where
  | inserted
  | updated
  | skipped
deriving DecidableEq, Repr

/-! #### `DatabaseManager.insert_or_update_batch` (`sam_utils.py`) -/

/-- A stored row of the `opportunities` table of `sam_utils.py` (the modelled
column subset, plus `PostedDate_normalized`). -/
structure SRow where
  noticeId : String
  title : String
  postedDate : String
  postedDateNorm : Option String
  oppType : String
  link : String
  awardNumber : String
  countryCode : String
  popCountry : String
  description : String
deriving DecidableEq, Repr

/-- The stored row written for `nid` and incoming record `r`: all retained
columns from the record, plus the normalized posted date.  The INSERT branch
and the UPDATE branch of the source write exactly these values (UPDATE leaves
`NoticeId` alone, but it equals `nid` for every matched row). -/
def mkSamRow (nid : String) (r : Rec) : SRow :=
  { noticeId := nid, title := r.title, postedDate := r.postedDate,
    postedDateNorm := normalize_posted_date r.postedDate, oppType := r.oppType,
    link := r.link, awardNumber := r.awardNumber, countryCode := r.countryCode,
    popCountry := r.popCountry, description := r.description }

/-- The identifier read by `insert_or_update_batch`:
`str(row.get('NoticeId', '')).strip()`. -/
def sam_nid (r : Rec) : String := pyStrip ((r.noticeId).getD "")

/-- The identifier guard of `insert_or_update_batch`:
`not notice_id or notice_id in ['nan', 'None', '']`. -/
def bad_notice_id_sam (nid : String) : Bool := nid == "" || nid == "nan" || nid == "None"

/-- The update condition of `insert_or_update_batch`:
`new_norm and existing_norm and new_norm > existing_norm` (Python compares the
normalized `YYYY-MM-DD` strings lexicographically). -/
def ok_update (newNorm oldNorm : Option String) : Bool :=
  match newNorm, oldNorm with
  | some n, some o => pyStrLt o n
  | _, _ => false

/-- One row of `DatabaseManager.insert_or_update_batch`: guard the identifier,
look the identity up, then update (when strictly newer), skip, or insert.  The
SQL `UPDATE ... WHERE NoticeId = ?` rewrites every row whose key matches. -/
def insert_or_update_step (st : List SRow) (r : Rec) : List SRow × Outcome :=
  let nid := sam_nid r
  if bad_notice_id_sam nid then (st, .skipped)
  else
    match st.find? (fun t => t.noticeId == nid) with
    | some e =>
      if ok_update (normalize_posted_date r.postedDate) (normalize_posted_date e.postedDate) then
        (st.map (fun t => if t.noticeId == nid then mkSamRow nid r else t), .updated)
      else (st, .skipped)
    | none => (st ++ [mkSamRow nid r], .inserted)

/-- The whole batch: the per-row step folded over the frame's rows. -/
def insert_or_update_batch (st : List SRow) (rows : List Rec) : List SRow :=
  rows.foldl (fun s r => (insert_or_update_step s r).1) st

/-! #### `insert_new_rows_chunk` (`download_and_update.py` and
`bootstrap_historical.py`) -/

/-- A stored row of the `opportunities` table of the two chunk scripts (the
modelled column subset; this schema has no normalized-date column). -/
structure BRow where
  noticeId : String
  title : String
  postedDate : String
  oppType : String
  link : String
  awardNumber : String
  countryCode : String
  popCountry : String
  description : String
deriving DecidableEq, Repr

/-- `fix_link` from `fix_sam_gov_links` (`bootstrap_historical.py`). -/
def fix_link (link : String) : String :=
  if link == "" then ""
  else
    let l := pyStrip link
    if pyStartsWith "http" l then l
    else if pyStartsWith "/opp/" l then "https://sam.gov" ++ l
    else if pyStartsWith "opp/" l then "https://sam.gov/" ++ l
    else
      match (pySplit l '/').find? (fun part => part != "" && decide (10 < part.length)) with
      | some part => "https://sam.gov/opp/" ++ part ++ "/view"
      | none => l

/-- The row stored by the daily script: country columns standardized to the
display format, everything else verbatim. -/
def mkDailyRow (nid : String) (r : Rec) : BRow :=
  { noticeId := nid, title := r.title, postedDate := r.postedDate, oppType := r.oppType,
    link := r.link, awardNumber := r.awardNumber,
    countryCode := standardize_country_code_daily r.countryCode,
    popCountry := standardize_country_code_daily r.popCountry,
    description := r.description }

/-- The row stored by the backfill script: country columns standardized to
bare ISO codes, links fixed, everything else verbatim. -/
def mkBootRow (nid : String) (r : Rec) : BRow :=
  { noticeId := nid, title := r.title, postedDate := r.postedDate, oppType := r.oppType,
    link := fix_link r.link, awardNumber := r.awardNumber,
    countryCode := standardize_country_code_boot r.countryCode,
    popCountry := standardize_country_code_boot r.popCountry,
    description := r.description }

/-- The identifier read by the chunk scripts:
`(row.get("NoticeID") or "").strip()`. -/
def chunk_nid (r : Rec) : String := pyStrip (resolve_notice_id r)

/-- The identifier guard of the chunk scripts:
`not nid or nid.lower() == "nan"`. -/
def bad_notice_id_chunk (nid : String) : Bool := nid == "" || pyLower nid == "nan"

/-- One row of `insert_new_rows_chunk` (`download_and_update.py`): guard the
identifier, then a plain INSERT; the UNIQUE constraint on `NoticeID` turns a
re-ingested identity into a caught `IntegrityError`, i.e. a skip. -/
def insert_new_rows_step_daily (st : List BRow) (r : Rec) : List BRow × Outcome :=
  let nid := chunk_nid r
  if bad_notice_id_chunk nid then (st, .skipped)
  else if st.any (fun t => t.noticeId == nid) then (st, .skipped)
  else (st ++ [mkDailyRow nid r], .inserted)

/-- One row of `insert_new_rows_chunk` (`bootstrap_historical.py`): same
insert-or-ignore discipline, with the backfill row transforms. -/
def insert_new_rows_step_boot (st : List BRow) (r : Rec) : List BRow × Outcome :=
  let nid := chunk_nid r
  if bad_notice_id_chunk nid then (st, .skipped)
  else if st.any (fun t => t.noticeId == nid) then (st, .skipped)
  else (st ++ [mkBootRow nid r], .inserted)

/-- `filter_african_rows` row predicate of the daily script, on a record. -/
def row_matches_rec_daily (r : Rec) : Bool := row_matches_daily r.popCountry r.countryCode

/-- `filter_african_rows` row predicate of the backfill script, on a record. -/
def row_matches_rec_boot (r : Rec) : Bool := row_matches_boot r.popCountry r.countryCode

/-- The daily pipeline over one file's rows: `filter_african_rows`, then
`ensure_notice_id_column`, then `insert_new_rows_chunk` (chunking commutes
with this composition since filtering and identity assignment are
per-row). -/
def ingest_daily (st : List BRow) (rows : List Rec) : List BRow :=
  (rows.filter row_matches_rec_daily).foldl (fun s r => (insert_new_rows_step_daily s r).1) st

/-- `ingest_file_into_db` of the backfill script over one file's rows:
`filter_african_rows`, then `ensure_notice_id_column`, then
`insert_new_rows_chunk`. -/
def ingest_file_boot (st : List BRow) (rows : List Rec) : List BRow :=
  (rows.filter row_matches_rec_boot).foldl (fun s r => (insert_new_rows_step_boot s r).1) st

/-- The backfill insert loop folded over already-filtered rows (the body of
`ingest_file_into_db` after filtering and identity assignment). -/
def bootApply (st : List BRow) (l : List Rec) : List BRow :=
  l.foldl (fun s r => (insert_new_rows_step_boot s r).1) st
/-! ### The merge-policy invariants used in the idempotence proofs -/

/-- After `r` has been applied once, the store satisfies this: the identifier
is unusable, or the stored row found under it can no longer be beaten by
`r`'s date. -/
def samGood (st : List SRow) (r : Rec) : Prop :=
  bad_notice_id_sam (sam_nid r) = true ∨
    ∃ e, st.find? (fun t => t.noticeId == sam_nid r) = some e ∧
      ok_update (normalize_posted_date r.postedDate) (normalize_posted_date e.postedDate) = false

/-- After `r` has been applied once through a chunk insert, its identifier is
unusable or already present. -/
def bootDone (st : List BRow) (r : Rec) : Prop :=
  bad_notice_id_chunk (chunk_nid r) = true ∨
    st.any (fun t => t.noticeId == chunk_nid r) = true

/-! ### The classifier order as the specification words it -/

/-- Modelled from the spec: the claimed matcher order for the region
classifier — exact case-insensitive code match, then exact alias-table match,
then substring containment of an alias key in the candidate (both
directions), first match wins — instantiated with the lookup tables of
`sam_utils.py`. -/
def claim_order_classify_sam (v : String) : Bool :=
  let c := pyStrip (pyUpper v)
  if sam_iso3_codes.contains c then true
  else if sam_all_lookup_keys.contains c then true
  else sam_all_lookup_keys.any (fun k => containsSub k c || containsSub c k)

/-! ### Concrete sample data for witnesses and counterexamples -/

/-- A stored row with identity `A` posted on 2024-01-01. -/
def srowA : SRow :=
  { noticeId := "A", title := "old title", postedDate := "2024-01-01",
    postedDateNorm := some "2024-01-01", oppType := "o", link := "l",
    awardNumber := "w", countryCode := "KEN", popCountry := "Kenya",
    description := "d" }

/-- The same identity in the chunk-table schema. -/
def browA : BRow :=
  { noticeId := "A", title := "old title", postedDate := "2024-01-01",
    oppType := "o", link := "l", awardNumber := "w", countryCode := "KEN",
    popCountry := "Kenya", description := "d" }

/-- An incoming record for identity `A` with the newer date 2024-06-02. -/
def recNew : Rec :=
  { noticeId := some "A", title := "new title", postedDate := "2024-06-02",
    oppType := "t", link := "ln", awardNumber := "aw", countryCode := "KEN",
    popCountry := "Kenya", description := "dn" }

/-- Identity `B` with the older parseable date. -/
def recD1 : Rec :=
  { noticeId := some "B", title := "first", postedDate := "2023-06-01",
    oppType := "", link := "", awardNumber := "", countryCode := "KEN",
    popCountry := "Kenya", description := "" }

/-- Identity `B` with the newer parseable date. -/
def recD2 : Rec :=
  { noticeId := some "B", title := "second", postedDate := "2024-01-01",
    oppType := "", link := "", awardNumber := "", countryCode := "KEN",
    popCountry := "Kenya", description := "" }

/-- A record whose only country value is `United States`. -/
def usRec : Rec :=
  { noticeId := some "U1", title := "us job", postedDate := "2024-02-02",
    oppType := "", link := "", awardNumber := "", countryCode := "",
    popCountry := "United States", description := "" }

/-- A record whose region text matches the African filter only by substring
and fails exact standardization. -/
def recNigeria : Rec :=
  { noticeId := some "N1", title := "lagos job", postedDate := "2024-03-03",
    oppType := "", link := "", awardNumber := "", countryCode := "",
    popCountry := "federal nigeria", description := "" }

/-- A stored row whose stored posted date does not normalize. -/
def srowFrozen : SRow :=
  { noticeId := "F", title := "frozen", postedDate := "not-a-date",
    postedDateNorm := none, oppType := "", link := "", awardNumber := "",
    countryCode := "", popCountry := "", description := "" }

/-- An incoming record for the frozen identity carrying a valid date. -/
def recFrozenNew : Rec :=
  { noticeId := some "F", title := "thaw attempt", postedDate := "2024-05-05",
    oppType := "", link := "", awardNumber := "", countryCode := "",
    popCountry := "", description := "" }

/-- A record whose identifier value is whitespace only. -/
def recWsId : Rec :=
  { noticeId := some "   ", title := "ws", postedDate := "2024-04-04",
    oppType := "", link := "", awardNumber := "", countryCode := "KEN",
    popCountry := "Kenya", description := "" }

/-- A column list with no identifier-like column. -/
def colsNoId : List String := ["Title", "PostedDate", "PopCountry"]

/-- A one-column raw row. -/
def arowTitle : ARow := [("Title", "x")]
/-! ### Helper lemmas -/

theorem find?_append_some {α : Type} {p : α → Bool} {l1 l2 : List α} {e : α}
    (h : l1.find? p = some e) : (l1 ++ l2).find? p = some e := by
  induction l1 with
  | nil => simp [List.find?] at h
  | cons x xs ih =>
    rw [List.cons_append]
    cases hx : p x with
    | true => simp [List.find?_cons, hx] at h ⊢; exact h
    | false => simp only [List.find?_cons, hx] at h ⊢; exact ih h

theorem find?_append_none {α : Type} {p : α → Bool} {l1 l2 : List α}
    (h : l1.find? p = none) : (l1 ++ l2).find? p = l2.find? p := by
  induction l1 with
  | nil => rfl
  | cons x xs ih =>
    rw [List.cons_append]
    cases hx : p x with
    | true => simp [List.find?_cons, hx] at h
    | false => simp only [List.find?_cons, hx] at h ⊢; exact ih h

theorem find?_map_key {α : Type} (key : α → String) (g : α → α)
    (hg : ∀ t, key (g t) = key t) (nid : String) :
    ∀ (st : List α) (e : α), st.find? (fun t => key t == nid) = some e →
      (st.map g).find? (fun t => key t == nid) = some (g e) := by
  intro st
  induction st with
  | nil => intro e h; simp [List.find?] at h
  | cons x xs ih =>
    intro e h
    cases hx : (key x == nid) with
    | true =>
      simp only [List.find?_cons, hx] at h
      rw [List.map_cons]
      have hgx : (key (g x) == nid) = true := by rw [hg]; exact hx
      simp only [List.find?_cons, hgx]
      rw [Option.some_inj] at h
      rw [h]
    | false =>
      simp only [List.find?_cons, hx] at h
      rw [List.map_cons]
      have hgx : (key (g x) == nid) = false := by rw [hg]; exact hx
      simp only [List.find?_cons, hgx]
      exact ih e h

theorem any_append_left {α : Type} {p : α → Bool} {l1 : List α} (l2 : List α)
    (h : l1.any p = true) : (l1 ++ l2).any p = true := by
  rw [List.any_append, h, Bool.true_or]

theorem charListLt_irrefl : ∀ l : List Char, charListLt l l = false := by
  intro l
  induction l with
  | nil => rfl
  | cons a as ih => simp [charListLt, ih]

theorem charListLt_trans : ∀ {l1 l2 l3 : List Char}, charListLt l1 l2 = true →
    charListLt l2 l3 = true → charListLt l1 l3 = true := by
  intro l1
  induction l1 with
  | nil =>
    intro l2 l3 h12 h23
    cases l2 with
    | nil => simp [charListLt] at h12
    | cons b bs =>
      cases l3 with
      | nil => simp [charListLt] at h23
      | cons c cs => rfl
  | cons a as ih =>
    intro l2 l3 h12 h23
    cases l2 with
    | nil => simp [charListLt] at h12
    | cons b bs =>
      cases l3 with
      | nil => simp [charListLt] at h23
      | cons c cs =>
        simp only [charListLt, Bool.or_eq_true, Bool.and_eq_true, decide_eq_true_eq,
          beq_iff_eq] at h12 h23 ⊢
        rcases h12 with h12 | ⟨e12, l12⟩ <;> rcases h23 with h23 | ⟨e23, l23⟩
        · exact Or.inl (by omega)
        · exact Or.inl (by omega)
        · exact Or.inl (by omega)
        · exact Or.inr ⟨by omega, ih l12 l23⟩

theorem charListLt_asymm {l1 l2 : List Char} (h : charListLt l1 l2 = true) :
    charListLt l2 l1 = false := by
  cases hc : charListLt l2 l1 with
  | false => rfl
  | true =>
    have := charListLt_trans h hc
    rw [charListLt_irrefl l1] at this
    cases this

theorem pyStrLt_irrefl (a : String) : pyStrLt a a = false := charListLt_irrefl _

theorem pyStrLt_trans {a b c : String} (h1 : pyStrLt a b = true)
    (h2 : pyStrLt b c = true) : pyStrLt a c = true := charListLt_trans h1 h2

theorem pyStrLt_asymm {a b : String} (h : pyStrLt a b = true) :
    pyStrLt b a = false := charListLt_asymm h

theorem ok_update_self (o : Option String) : ok_update o o = false := by
  cases o with
  | none => rfl
  | some d => simp [ok_update, pyStrLt_irrefl]

theorem ok_update_none_left (o : Option String) : ok_update none o = false := by
  cases o <;> rfl

theorem ok_update_iff (n o : Option String) :
    ok_update n o = true ↔ ∃ a b, n = some a ∧ o = some b ∧ pyStrLt b a = true := by
  cases n <;> cases o <;> simp [ok_update]

theorem ok_update_newer_false {nnr : Option String} {od d : String}
    (h : ok_update nnr (some od) = false) (hlt : pyStrLt od d = true) :
    ok_update nnr (some d) = false := by
  cases nnr with
  | none => rfl
  | some m =>
    simp only [ok_update] at h ⊢
    cases hc : pyStrLt d m with
    | false => rfl
    | true =>
      rw [pyStrLt_trans hlt hc] at h
      cases h

theorem mem_dropWhile_of_mem {α : Type} {p : α → Bool} {c : α} :
    ∀ {l : List α}, c ∈ l → p c = false → c ∈ l.dropWhile p := by
  intro l
  induction l with
  | nil => intro h _; exact absurd h (List.not_mem_nil c)
  | cons x xs ih =>
    intro hmem hpc
    cases hx : p x with
    | true =>
      rw [List.dropWhile_cons_of_pos hx]
      rcases List.mem_cons.mp hmem with rfl | hm
      · rw [hpc] at hx; cases hx
      · exact ih hm hpc
    | false =>
      rw [List.dropWhile_cons_of_neg (by simp [hx])]
      exact hmem

theorem mem_pyStripL {c : Char} {l : List Char} (hmem : c ∈ l)
    (hws : isPyWs c = false) : c ∈ pyStripL l := by
  unfold pyStripL
  have h1 : c ∈ l.dropWhile isPyWs := mem_dropWhile_of_mem hmem hws
  have h2 : c ∈ (l.dropWhile isPyWs).reverse := List.mem_reverse.mpr h1
  have h3 : c ∈ (l.dropWhile isPyWs).reverse.dropWhile isPyWs :=
    mem_dropWhile_of_mem h2 hws
  exact List.mem_reverse.mpr h3

theorem pipe_mem_joinPipe (a b : String) (rest : List String) :
    '|' ∈ joinPipe (a :: b :: rest) := by
  simp [joinPipe]

theorem joinPipe_strip_ne_nil (a b : String) (rest : List String) :
    (pyStripL (joinPipe (a :: b :: rest))).isEmpty = false := by
  have hp : '|' ∈ pyStripL (joinPipe (a :: b :: rest)) :=
    mem_pyStripL (pipe_mem_joinPipe a b rest) (by decide)
  cases hX : pyStripL (joinPipe (a :: b :: rest)) with
  | nil => rw [hX] at hp; exact absurd hp (List.not_mem_nil _)
  | cons x xs => rfl
/-! ### Behaviour of the three step functions, as equations -/

theorem sam_step_bad {st : List SRow} {r : Rec}
    (h : bad_notice_id_sam (sam_nid r) = true) :
    insert_or_update_step st r = (st, Outcome.skipped) := by
  simp [insert_or_update_step, h]

theorem sam_step_skip {st : List SRow} {r : Rec} {e : SRow}
    (hfind : st.find? (fun t => t.noticeId == sam_nid r) = some e)
    (hok : ok_update (normalize_posted_date r.postedDate)
      (normalize_posted_date e.postedDate) = false) :
    insert_or_update_step st r = (st, Outcome.skipped) := by
  cases hbad : bad_notice_id_sam (sam_nid r) with
  | true => exact sam_step_bad hbad
  | false => simp [insert_or_update_step, hbad, hfind, hok]

theorem sam_step_update {st : List SRow} {r : Rec} {e : SRow}
    (hbad : bad_notice_id_sam (sam_nid r) = false)
    (hfind : st.find? (fun t => t.noticeId == sam_nid r) = some e)
    (hok : ok_update (normalize_posted_date r.postedDate)
      (normalize_posted_date e.postedDate) = true) :
    insert_or_update_step st r =
      (st.map (fun t => if t.noticeId == sam_nid r then mkSamRow (sam_nid r) r else t),
        Outcome.updated) := by
  simp [insert_or_update_step, hbad, hfind, hok]

theorem sam_step_insert {st : List SRow} {r : Rec}
    (hbad : bad_notice_id_sam (sam_nid r) = false)
    (hfind : st.find? (fun t => t.noticeId == sam_nid r) = none) :
    insert_or_update_step st r = (st ++ [mkSamRow (sam_nid r) r], Outcome.inserted) := by
  simp [insert_or_update_step, hbad, hfind]

theorem daily_step_bad {st : List BRow} {r : Rec}
    (h : bad_notice_id_chunk (chunk_nid r) = true) :
    insert_new_rows_step_daily st r = (st, Outcome.skipped) := by
  simp [insert_new_rows_step_daily, h]

theorem daily_step_dup {st : List BRow} {r : Rec}
    (h : st.any (fun t => t.noticeId == chunk_nid r) = true) :
    insert_new_rows_step_daily st r = (st, Outcome.skipped) := by
  cases hbad : bad_notice_id_chunk (chunk_nid r) with
  | true => exact daily_step_bad hbad
  | false => simp [insert_new_rows_step_daily, hbad, h]

theorem daily_step_insert {st : List BRow} {r : Rec}
    (hbad : bad_notice_id_chunk (chunk_nid r) = false)
    (hany : st.any (fun t => t.noticeId == chunk_nid r) = false) :
    insert_new_rows_step_daily st r = (st ++ [mkDailyRow (chunk_nid r) r], Outcome.inserted) := by
  simp [insert_new_rows_step_daily, hbad, hany]

theorem boot_step_bad {st : List BRow} {r : Rec}
    (h : bad_notice_id_chunk (chunk_nid r) = true) :
    insert_new_rows_step_boot st r = (st, Outcome.skipped) := by
  simp [insert_new_rows_step_boot, h]

theorem boot_step_dup {st : List BRow} {r : Rec}
    (h : st.any (fun t => t.noticeId == chunk_nid r) = true) :
    insert_new_rows_step_boot st r = (st, Outcome.skipped) := by
  cases hbad : bad_notice_id_chunk (chunk_nid r) with
  | true => exact boot_step_bad hbad
  | false => simp [insert_new_rows_step_boot, hbad, h]

theorem boot_step_insert {st : List BRow} {r : Rec}
    (hbad : bad_notice_id_chunk (chunk_nid r) = false)
    (hany : st.any (fun t => t.noticeId == chunk_nid r) = false) :
    insert_new_rows_step_boot st r = (st ++ [mkBootRow (chunk_nid r) r], Outcome.inserted) := by
  simp [insert_new_rows_step_boot, hbad, hany]

theorem boot_step_store_cases (st : List BRow) (r : Rec) :
    (insert_new_rows_step_boot st r).1 = st ∨
      (insert_new_rows_step_boot st r).1 = st ++ [mkBootRow (chunk_nid r) r] := by
  cases hbad : bad_notice_id_chunk (chunk_nid r) with
  | true => left; rw [boot_step_bad hbad]
  | false =>
    cases hany : st.any (fun t => t.noticeId == chunk_nid r) with
    | true => left; rw [boot_step_dup hany]
    | false => right; rw [boot_step_insert hbad hany]

/-! ### The update map preserves keys -/

theorem mkSamRow_upd_key (nid : String) (r : Rec) (t : SRow) :
    (if t.noticeId == nid then mkSamRow nid r else t).noticeId = t.noticeId := by
  cases ht : (t.noticeId == nid) with
  | true =>
    simp only [ht, if_true]
    exact (eq_of_beq ht).symm
  | false => simp only [ht, Bool.false_eq_true, if_false]

theorem find?_map_noticeId (g : SRow → SRow) (hg : ∀ t, (g t).noticeId = t.noticeId)
    (nid : String) : ∀ (st : List SRow) (e : SRow),
    st.find? (fun t => t.noticeId == nid) = some e →
      (st.map g).find? (fun t => t.noticeId == nid) = some (g e) :=
  find?_map_key (fun t => t.noticeId) g hg nid

/-! ### Idempotence machinery for `insert_or_update_batch` -/

theorem batch_cons (st : List SRow) (x : Rec) (xs : List Rec) :
    insert_or_update_batch st (x :: xs) =
      insert_or_update_batch ((insert_or_update_step st x).1) xs := rfl

theorem samGood_settled {st : List SRow} {r : Rec} (h : samGood st r) :
    (insert_or_update_step st r).1 = st := by
  rcases h with hbad | ⟨e, hfind, hok⟩
  · rw [sam_step_bad hbad]
  · rw [sam_step_skip hfind hok]

theorem samGood_establish (st : List SRow) (r : Rec) :
    samGood ((insert_or_update_step st r).1) r := by
  cases hbad : bad_notice_id_sam (sam_nid r) with
  | true => exact Or.inl hbad
  | false =>
    cases hfind : st.find? (fun t => t.noticeId == sam_nid r) with
    | none =>
      rw [sam_step_insert hbad hfind]
      refine Or.inr ⟨mkSamRow (sam_nid r) r, ?_, ?_⟩
      · rw [find?_append_none hfind]
        simp [List.find?_cons, mkSamRow]
      · exact ok_update_self _
    | some e =>
      cases hok : ok_update (normalize_posted_date r.postedDate)
          (normalize_posted_date e.postedDate) with
      | false =>
        rw [sam_step_skip hfind hok]
        exact Or.inr ⟨e, hfind, hok⟩
      | true =>
        rw [sam_step_update hbad hfind hok]
        refine Or.inr ⟨mkSamRow (sam_nid r) r, ?_, ?_⟩
        · have hmap := find?_map_noticeId _ (mkSamRow_upd_key (sam_nid r) r)
            (sam_nid r) st e hfind
          rw [hmap]
          have hpe : (e.noticeId == sam_nid r) = true := by simpa using List.find?_some hfind
          simp [hpe]
        · exact ok_update_self _

theorem samGood_preserve (st : List SRow) (r r' : Rec) (h : samGood st r) :
    samGood ((insert_or_update_step st r').1) r := by
  rcases h with hbad | ⟨e, hfind, hok⟩
  · exact Or.inl hbad
  · right
    cases hbad' : bad_notice_id_sam (sam_nid r') with
    | true => rw [sam_step_bad hbad']; exact ⟨e, hfind, hok⟩
    | false =>
      cases hfind' : st.find? (fun t => t.noticeId == sam_nid r') with
      | none =>
        rw [sam_step_insert hbad' hfind']
        exact ⟨e, find?_append_some hfind, hok⟩
      | some e' =>
        cases hok' : ok_update (normalize_posted_date r'.postedDate)
            (normalize_posted_date e'.postedDate) with
        | false => rw [sam_step_skip hfind' hok']; exact ⟨e, hfind, hok⟩
        | true =>
          rw [sam_step_update hbad' hfind' hok']
          have hpe : (e.noticeId == sam_nid r) = true := by simpa using List.find?_some hfind
          by_cases hnid : sam_nid r' = sam_nid r
          · have he : e = e' := by
              rw [hnid] at hfind'
              have := hfind.symm.trans hfind'
              exact Option.some_inj.mp this
            subst he
            obtain ⟨d', od, hnn', hode, hlt'⟩ := (ok_update_iff _ _).mp hok'
            refine ⟨mkSamRow (sam_nid r') r', ?_, ?_⟩
            · have hmap := find?_map_noticeId _ (mkSamRow_upd_key (sam_nid r') r')
                (sam_nid r) st e hfind
              rw [hmap]
              have hpe' : (e.noticeId == sam_nid r') = true := by
                rw [hnid]; exact hpe
              simp [hpe']
            · show ok_update (normalize_posted_date r.postedDate)
                (normalize_posted_date r'.postedDate) = false
              rw [hnn']
              rw [hode] at hok
              exact ok_update_newer_false hok hlt'
          · have hpe' : (e.noticeId == sam_nid r') = false := by
              have he : e.noticeId = sam_nid r := eq_of_beq hpe
              rw [he]
              exact beq_eq_false_iff_ne.mpr (fun hc => hnid hc.symm)
            refine ⟨e, ?_, hok⟩
            have hmap := find?_map_noticeId _ (mkSamRow_upd_key (sam_nid r') r')
              (sam_nid r) st e hfind
            rw [hmap]
            simp [hpe']

theorem samGood_batch (l : List Rec) : ∀ (st : List SRow) (r : Rec), samGood st r →
    samGood (insert_or_update_batch st l) r := by
  induction l with
  | nil => intro st r h; exact h
  | cons x xs ih =>
    intro st r h
    rw [batch_cons]
    exact ih _ r (samGood_preserve st r x h)

theorem samGood_all (rows : List Rec) : ∀ (st : List SRow) (r : Rec), r ∈ rows →
    samGood (insert_or_update_batch st rows) r := by
  induction rows with
  | nil => intro st r h; exact absurd h (List.not_mem_nil r)
  | cons x xs ih =>
    intro st r h
    rw [batch_cons]
    rcases List.mem_cons.mp h with rfl | hm
    · exact samGood_batch xs _ r (samGood_establish st r)
    · exact ih _ r hm

theorem batch_settled (rows : List Rec) : ∀ (st : List SRow),
    (∀ r ∈ rows, (insert_or_update_step st r).1 = st) →
    insert_or_update_batch st rows = st := by
  induction rows with
  | nil => intro st _; rfl
  | cons x xs ih =>
    intro st h
    rw [batch_cons, h x (List.mem_cons_self x xs)]
    exact ih st (fun r hr => h r (List.mem_cons_of_mem x hr))

/-! ### Idempotence machinery for the backfill ingest -/

theorem bootApply_cons (st : List BRow) (x : Rec) (xs : List Rec) :
    bootApply st (x :: xs) = bootApply ((insert_new_rows_step_boot st x).1) xs := rfl

theorem ingest_file_boot_eq (st : List BRow) (rows : List Rec) :
    ingest_file_boot st rows = bootApply st (rows.filter row_matches_rec_boot) := rfl

theorem bootDone_settled {st : List BRow} {r : Rec} (h : bootDone st r) :
    (insert_new_rows_step_boot st r).1 = st := by
  rcases h with hbad | hany
  · rw [boot_step_bad hbad]
  · rw [boot_step_dup hany]

theorem bootDone_establish (st : List BRow) (r : Rec) :
    bootDone ((insert_new_rows_step_boot st r).1) r := by
  cases hbad : bad_notice_id_chunk (chunk_nid r) with
  | true => exact Or.inl hbad
  | false =>
    cases hany : st.any (fun t => t.noticeId == chunk_nid r) with
    | true => rw [boot_step_dup hany]; exact Or.inr hany
    | false =>
      rw [boot_step_insert hbad hany]
      right
      rw [List.any_append]
      simp [mkBootRow]

theorem bootDone_preserve (st : List BRow) (r r' : Rec) (h : bootDone st r) :
    bootDone ((insert_new_rows_step_boot st r').1) r := by
  rcases h with hbad | hany
  · exact Or.inl hbad
  · right
    rcases boot_step_store_cases st r' with he | he <;> rw [he]
    · exact hany
    · exact any_append_left _ hany

theorem bootDone_apply (l : List Rec) : ∀ (st : List BRow) (r : Rec), bootDone st r →
    bootDone (bootApply st l) r := by
  induction l with
  | nil => intro st r h; exact h
  | cons x xs ih =>
    intro st r h
    rw [bootApply_cons]
    exact ih _ r (bootDone_preserve st r x h)

theorem bootDone_all (l : List Rec) : ∀ (st : List BRow) (r : Rec), r ∈ l →
    bootDone (bootApply st l) r := by
  induction l with
  | nil => intro st r h; exact absurd h (List.not_mem_nil r)
  | cons x xs ih =>
    intro st r h
    rw [bootApply_cons]
    rcases List.mem_cons.mp h with rfl | hm
    · exact bootDone_apply xs _ r (bootDone_establish st r)
    · exact ih _ r hm

theorem bootApply_settled (l : List Rec) : ∀ (st : List BRow),
    (∀ r ∈ l, (insert_new_rows_step_boot st r).1 = st) →
    bootApply st l = st := by
  induction l with
  | nil => intro st _; rfl
  | cons x xs ih =>
    intro st h
    rw [bootApply_cons, h x (List.mem_cons_self x xs)]
    exact ih st (fun r hr => h r (List.mem_cons_of_mem x hr))

theorem mem_bootApply : ∀ (l : List Rec) (st : List BRow) (t : BRow),
    t ∈ bootApply st l →
    t ∈ st ∨ ∃ r, r ∈ l ∧ t = mkBootRow (chunk_nid r) r := by
  intro l
  induction l with
  | nil => intro st t h; exact Or.inl h
  | cons x xs ih =>
    intro st t h
    rw [bootApply_cons] at h
    rcases ih _ t h with hmem | ⟨r, hr, rfl⟩
    · rcases boot_step_store_cases st x with he | he
      · rw [he] at hmem; exact Or.inl hmem
      · rw [he] at hmem
        rcases List.mem_append.mp hmem with hl | hr
        · exact Or.inl hl
        · right
          refine ⟨x, List.mem_cons_self x xs, ?_⟩
          rcases List.mem_singleton.mp hr with rfl
          rfl
    · exact Or.inr ⟨r, List.mem_cons_of_mem x hr, rfl⟩

/-! ### The `make_hash` congruence over the seven hashed fields -/

theorem make_hash_eq_of_fields {r1 r2 : ARow}
    (h1 : aget r1 "Title" = aget r2 "Title")
    (h2 : aget r1 "PostedDate" = aget r2 "PostedDate")
    (h3 : aget r1 "Type" = aget r2 "Type")
    (h4 : aget r1 "Link" = aget r2 "Link")
    (h5 : aget r1 "AwardNumber" = aget r2 "AwardNumber")
    (h6 : aget r1 "CountryCode" = aget r2 "CountryCode")
    (h7 : aget r1 "PopCountry" = aget r2 "PopCountry") :
    make_hash r1 = make_hash r2 := by
  have hne := joinPipe_strip_ne_nil (aget r2 "Title") (aget r2 "PostedDate")
    [aget r2 "Type", aget r2 "Link", aget r2 "AwardNumber", aget r2 "CountryCode",
      aget r2 "PopCountry"]
  simp only [make_hash, h1, h2, h3, h4, h5, h6, h7, hne, Bool.false_eq_true, if_false]

/-! ### Shape of normalized dates -/

theorem digitChar_isDigit (k : Nat) : (digitChar k).isDigit = true := by
  rcases k with _|_|_|_|_|_|_|_|_|k <;> rfl

theorem isDateShape_fmtDate (y m d : Nat) : isDateShape (fmtDate y m d) = true := by
  simp [isDateShape, fmtDate, fmt4, fmt2, isDateShapeL, digitChar_isDigit]

theorem pd_to_datetime_str_shape {s t : String} (h : pd_to_datetime_str s = some t) :
    isDateShape t = true := by
  unfold pd_to_datetime_str at h
  rw [Option.map_eq_some'] at h
  obtain ⟨x, _, hx⟩ := h
  rw [← hx]
  exact isDateShape_fmtDate x.1 x.2.1 x.2.2

theorem normalize_posted_date_shape {s t : String} (h : normalize_posted_date s = some t) :
    isDateShape t = true := by
  unfold normalize_posted_date at h
  split at h
  · exact absurd h (by simp)
  · split at h
    · rename_i hsh
      injection h with h'
      rw [← h']
      exact hsh
    · split at h
      · rename_i dp hdp
        injection h with h'
        rw [← h']
        split at hdp
        · split at hdp
          · rename_i hshape
            injection hdp with h2
            rw [← h2]
            exact hshape
          · exact absurd hdp (by simp)
        · exact absurd hdp (by simp)
      · exact pd_to_datetime_str_shape h
/-! ### The claims -/

/-- C1: for every upsert through `insert_or_update_batch` whose identity
already exists in the store, if the incoming record's normalized posted date
is non-null and strictly more recent than the stored one, all fields of the
stored row are overwritten (the row under the identity becomes exactly the
incoming record's row) and the outcome is `updated`; otherwise the outcome is
`skipped` and the store is left unchanged; in particular an incoming record
whose posted date normalizes to null never changes the stored row. -/
theorem c1_merge_policy (st : List SRow) (r : Rec) (e : SRow)
    (hbad : bad_notice_id_sam (sam_nid r) = false)
    (hfind : st.find? (fun t => t.noticeId == sam_nid r) = some e) :
    ((∃ d od, normalize_posted_date r.postedDate = some d ∧
        normalize_posted_date e.postedDate = some od ∧ pyStrLt od d = true) →
      (insert_or_update_step st r).2 = Outcome.updated ∧
      (insert_or_update_step st r).1.find? (fun t => t.noticeId == sam_nid r) =
        some (mkSamRow (sam_nid r) r)) ∧
    ((¬ ∃ d od, normalize_posted_date r.postedDate = some d ∧
        normalize_posted_date e.postedDate = some od ∧ pyStrLt od d = true) →
      insert_or_update_step st r = (st, Outcome.skipped)) ∧
    (normalize_posted_date r.postedDate = none →
      insert_or_update_step st r = (st, Outcome.skipped)) := by
  refine ⟨?_, ?_, ?_⟩
  · rintro ⟨d, od, hn, ho, hlt⟩
    have hok : ok_update (normalize_posted_date r.postedDate)
        (normalize_posted_date e.postedDate) = true :=
      (ok_update_iff _ _).mpr ⟨d, od, hn, ho, hlt⟩
    have hstep := sam_step_update hbad hfind hok
    constructor
    · rw [hstep]
    · rw [hstep]
      have hmap := find?_map_noticeId _ (mkSamRow_upd_key (sam_nid r) r)
        (sam_nid r) st e hfind
      have hpe : (e.noticeId == sam_nid r) = true := by simpa using List.find?_some hfind
      show (st.map _).find? _ = _
      rw [hmap]
      simp [hpe]
  · intro hne
    have hok : ok_update (normalize_posted_date r.postedDate)
        (normalize_posted_date e.postedDate) = false := by
      cases h : ok_update (normalize_posted_date r.postedDate)
          (normalize_posted_date e.postedDate) with
      | true => exact absurd ((ok_update_iff _ _).mp h) hne
      | false => rfl
    exact sam_step_skip hfind hok
  · intro hn
    have hok : ok_update (normalize_posted_date r.postedDate)
        (normalize_posted_date e.postedDate) = false := by
      rw [hn]; exact ok_update_none_left _
    exact sam_step_skip hfind hok

/-- Witness for C1 at a concrete store and record. -/
theorem c1_merge_policy_witness :
    (insert_or_update_step [srowA] recNew).2 = Outcome.updated ∧
    (insert_or_update_step [srowA] recNew).1.find?
        (fun t => t.noticeId == sam_nid recNew) =
      some (mkSamRow (sam_nid recNew) recNew) :=
  (c1_merge_policy [srowA] recNew srowA (by decide) (by decide)).1
    ⟨"2024-06-02", "2024-01-01", by decide, by decide, by decide⟩

/-- C2 counterexample: at the same pre-state (identity `A` stored with date
2024-01-01) and the same incoming record (identity `A`, newer date
2024-06-02), the batch upsert of `sam_utils.py` reports `updated` and
overwrites the stored date, while both chunk-insert paths report a skip and
leave the stored date unchanged — the three write paths do not implement the
same merge policy. -/
theorem c2_counterexample :
    (insert_or_update_step [srowA] recNew).2 = Outcome.updated ∧
    (insert_new_rows_step_daily [browA] recNew).2 = Outcome.skipped ∧
    (insert_new_rows_step_boot [browA] recNew).2 = Outcome.skipped ∧
    (insert_or_update_step [srowA] recNew).1.map (fun t => t.postedDate) =
      ["2024-06-02"] ∧
    (insert_new_rows_step_daily [browA] recNew).1.map (fun t => t.postedDate) =
      ["2024-01-01"] ∧
    (insert_new_rows_step_boot [browA] recNew).1.map (fun t => t.postedDate) =
      ["2024-01-01"] := by
  decide

/-- C2 amended: the write paths agree only on the non-overwriting side of the
merge policy.  Both chunk-insert paths always skip an already-present identity
and leave the store unchanged (insert-or-ignore), and the batch upsert leaves
the store unchanged whenever the incoming date is not strictly newer; on a
strictly newer incoming date the batch upsert updates while the chunk paths
still skip (see the counterexample). -/
theorem c2_uniform_merge_amended :
    (∀ (st : List BRow) (r : Rec), st.any (fun t => t.noticeId == chunk_nid r) = true →
      insert_new_rows_step_daily st r = (st, Outcome.skipped)) ∧
    (∀ (st : List BRow) (r : Rec), st.any (fun t => t.noticeId == chunk_nid r) = true →
      insert_new_rows_step_boot st r = (st, Outcome.skipped)) ∧
    (∀ (st : List SRow) (r : Rec) (e : SRow),
      st.find? (fun t => t.noticeId == sam_nid r) = some e →
      ok_update (normalize_posted_date r.postedDate)
        (normalize_posted_date e.postedDate) = false →
      insert_or_update_step st r = (st, Outcome.skipped)) :=
  ⟨fun _ _ h => daily_step_dup h, fun _ _ h => boot_step_dup h,
    fun _ _ _ hf hok => sam_step_skip hf hok⟩

/-- Witness for the amended C2 at a concrete store and record. -/
theorem c2_uniform_merge_amended_witness :
    insert_new_rows_step_daily [browA] recNew = ([browA], Outcome.skipped) ∧
    insert_new_rows_step_boot [browA] recNew = ([browA], Outcome.skipped) ∧
    insert_or_update_step [srowFrozen] recFrozenNew = ([srowFrozen], Outcome.skipped) :=
  ⟨c2_uniform_merge_amended.1 [browA] recNew (by decide),
    c2_uniform_merge_amended.2.1 [browA] recNew (by decide),
    c2_uniform_merge_amended.2.2 [srowFrozen] recFrozenNew srowFrozen (by decide) (by decide)⟩

/-- C3 counterexample: through the daily chunk insert, applying the upserts
oldest-first leaves the store holding D1, not D2, with the D2 attempt
skipped — the claim fails on that write path (both dates are parseable). -/
theorem c3_counterexample :
    normalize_posted_date recD1.postedDate = some "2023-06-01" ∧
    normalize_posted_date recD2.postedDate = some "2024-01-01" ∧
    pyStrLt "2023-06-01" "2024-01-01" = true ∧
    (insert_new_rows_step_daily (insert_new_rows_step_daily [] recD1).1 recD2).2 =
      Outcome.skipped ∧
    (insert_new_rows_step_daily (insert_new_rows_step_daily [] recD1).1 recD2).1.map
        (fun t => t.postedDate) = ["2023-06-01"] := by
  refine ⟨by decide, by decide, by decide, by decide, by decide⟩

/-- C3 amended: restricted to the batch upsert of `sam_utils.py`, the claim
holds — for a fresh identity and parseable dates D1 < D2, either order leaves
the store holding the record carrying D2, and applying D2 first makes the D1
upsert report `skipped` with the store unchanged. -/
theorem c3_date_monotonic_amended (st : List SRow) (r1 r2 : Rec) (d1 d2 : String)
    (hid : sam_nid r2 = sam_nid r1)
    (hbad : bad_notice_id_sam (sam_nid r1) = false)
    (habs : st.find? (fun t => t.noticeId == sam_nid r1) = none)
    (h1 : normalize_posted_date r1.postedDate = some d1)
    (h2 : normalize_posted_date r2.postedDate = some d2)
    (hlt : pyStrLt d1 d2 = true) :
    ((insert_or_update_step (insert_or_update_step st r1).1 r2).1.find?
        (fun t => t.noticeId == sam_nid r1) = some (mkSamRow (sam_nid r1) r2)) ∧
    ((insert_or_update_step st r2).1.find? (fun t => t.noticeId == sam_nid r1) =
        some (mkSamRow (sam_nid r1) r2)) ∧
    (insert_or_update_step (insert_or_update_step st r2).1 r1 =
        ((insert_or_update_step st r2).1, Outcome.skipped)) := by
  have hbad2 : bad_notice_id_sam (sam_nid r2) = false := by rw [hid]; exact hbad
  have habs2 : st.find? (fun t => t.noticeId == sam_nid r2) = none := by
    rw [hid]; exact habs
  have hstep1 : insert_or_update_step st r1 =
      (st ++ [mkSamRow (sam_nid r1) r1], Outcome.inserted) := sam_step_insert hbad habs
  have hstep2i : insert_or_update_step st r2 =
      (st ++ [mkSamRow (sam_nid r2) r2], Outcome.inserted) := sam_step_insert hbad2 habs2
  have hfind1 : (st ++ [mkSamRow (sam_nid r1) r1]).find?
      (fun t => t.noticeId == sam_nid r1) = some (mkSamRow (sam_nid r1) r1) := by
    rw [find?_append_none habs]
    simp [List.find?_cons, mkSamRow]
  have hfind2 : (st ++ [mkSamRow (sam_nid r2) r2]).find?
      (fun t => t.noticeId == sam_nid r1) = some (mkSamRow (sam_nid r2) r2) := by
    rw [find?_append_none habs]
    simp [List.find?_cons, mkSamRow, hid]
  have hs1 : (insert_or_update_step st r1).1 = st ++ [mkSamRow (sam_nid r1) r1] := by
    rw [hstep1]
  have hs2 : (insert_or_update_step st r2).1 = st ++ [mkSamRow (sam_nid r2) r2] := by
    rw [hstep2i]
  refine ⟨?_, ?_, ?_⟩
  · -- apply r1 then r2: the D2 record overwrites
    have hfind1' : (st ++ [mkSamRow (sam_nid r1) r1]).find?
        (fun t => t.noticeId == sam_nid r2) = some (mkSamRow (sam_nid r1) r1) := by
      rw [hid]; exact hfind1
    have hok : ok_update (normalize_posted_date r2.postedDate)
        (normalize_posted_date (mkSamRow (sam_nid r1) r1).postedDate) = true := by
      show ok_update (normalize_posted_date r2.postedDate)
        (normalize_posted_date r1.postedDate) = true
      rw [h1, h2]
      show pyStrLt d1 d2 = true
      exact hlt
    have hupd := sam_step_update hbad2 hfind1' hok
    have hstore2 : (insert_or_update_step (st ++ [mkSamRow (sam_nid r1) r1]) r2).1 =
        List.map (fun t => if t.noticeId == sam_nid r2 then mkSamRow (sam_nid r2) r2 else t)
          (st ++ [mkSamRow (sam_nid r1) r1]) := by
      rw [hupd]
    rw [hs1, hstore2]
    have hmap := find?_map_noticeId _ (mkSamRow_upd_key (sam_nid r2) r2)
      (sam_nid r1) (st ++ [mkSamRow (sam_nid r1) r1]) (mkSamRow (sam_nid r1) r1) hfind1
    rw [hmap]
    have hpe : ((mkSamRow (sam_nid r1) r1).noticeId == sam_nid r2) = true := by
      simp [mkSamRow, hid]
    rw [if_pos hpe, hid]
  · rw [hs2, hid]
    rw [find?_append_none habs]
    simp [List.find?_cons, mkSamRow]
  · -- apply r2 then r1: the D1 record is skipped
    have hok : ok_update (normalize_posted_date r1.postedDate)
        (normalize_posted_date (mkSamRow (sam_nid r2) r2).postedDate) = false := by
      show ok_update (normalize_posted_date r1.postedDate)
        (normalize_posted_date r2.postedDate) = false
      rw [h1, h2]
      show pyStrLt d2 d1 = false
      exact pyStrLt_asymm hlt
    rw [hs2]
    exact sam_step_skip hfind2 hok

/-- Witness for the amended C3 at a concrete pair of records. -/
theorem c3_date_monotonic_amended_witness :
    ((insert_or_update_step (insert_or_update_step [] recD1).1 recD2).1.find?
        (fun t => t.noticeId == sam_nid recD1) = some (mkSamRow (sam_nid recD1) recD2)) ∧
    ((insert_or_update_step [] recD2).1.find? (fun t => t.noticeId == sam_nid recD1) =
        some (mkSamRow (sam_nid recD1) recD2)) ∧
    (insert_or_update_step (insert_or_update_step [] recD2).1 recD1 =
        ((insert_or_update_step [] recD2).1, Outcome.skipped)) :=
  c3_date_monotonic_amended [] recD1 recD2 "2023-06-01" "2024-01-01"
    (by decide) (by decide) (by decide) (by decide) (by decide) (by decide)

/-- C4: ingesting the same rows twice in succession yields exactly the same
store state as ingesting them once, both for the backfill ingest
(`ingest_file_into_db`) and for the batch upsert of `sam_utils.py`. -/
theorem c4_ingest_idempotent :
    (∀ (st : List BRow) (rows : List Rec),
      ingest_file_boot (ingest_file_boot st rows) rows = ingest_file_boot st rows) ∧
    (∀ (st : List SRow) (rows : List Rec),
      insert_or_update_batch (insert_or_update_batch st rows) rows =
        insert_or_update_batch st rows) := by
  constructor
  · intro st rows
    simp only [ingest_file_boot_eq]
    apply bootApply_settled
    intro r hr
    exact bootDone_settled (bootDone_all _ st r hr)
  · intro st rows
    apply batch_settled
    intro r hr
    exact samGood_settled (samGood_all rows st r hr)

/-- C5 counterexample: the backfill path stores a record whose region value
`federal nigeria` is neither a member of the 54-code set (the backfill's
canonical form is the bare ISO3 code) nor any parenthesised display form —
a stored region value outside the canonical set. -/
theorem c5_counterexample :
    (ingest_file_boot [] [recNigeria]).map (fun t => t.popCountry) =
      ["federal nigeria"] ∧
    boot_africa_iso3.contains "federal nigeria" = false ∧
    strContainsChar "federal nigeria" '(' = false := by
  decide

/-- C5 amended: a record reaches the backfill store only when the African row
filter matched it (every stored row is either pre-existing or the stored image
of a matching input row), and a record whose only country value is
`United States` is dropped by both chunk paths; however, stored region values
are canonicalized only on exact standardization hits and may otherwise remain
verbatim (see the counterexample). -/
theorem c5_region_filter_amended :
    (∀ (st : List BRow) (rows : List Rec) (t : BRow), t ∈ ingest_file_boot st rows →
      t ∈ st ∨ ∃ r, r ∈ rows ∧ row_matches_rec_boot r = true ∧
        t = mkBootRow (chunk_nid r) r) ∧
    (row_matches_boot usRec.popCountry usRec.countryCode = false ∧
      row_matches_daily usRec.popCountry usRec.countryCode = false ∧
      ingest_file_boot [] [usRec] = [] ∧ ingest_daily [] [usRec] = []) := by
  constructor
  · intro st rows t ht
    rw [ingest_file_boot_eq] at ht
    rcases mem_bootApply _ st t ht with h | ⟨r, hr, rfl⟩
    · exact Or.inl h
    · exact Or.inr ⟨r, (List.mem_filter.mp hr).1, (List.mem_filter.mp hr).2, rfl⟩
  · exact ⟨by decide, by decide, by decide, by decide⟩

/-- Witness for the amended C5 at a concrete ingested row. -/
theorem c5_region_filter_amended_witness :
    mkBootRow (chunk_nid recNigeria) recNigeria ∈ ([] : List BRow) ∨
      ∃ r, r ∈ [recNigeria] ∧ row_matches_rec_boot r = true ∧
        mkBootRow (chunk_nid recNigeria) recNigeria = mkBootRow (chunk_nid r) r :=
  c5_region_filter_amended.1 [] [recNigeria] (mkBootRow (chunk_nid recNigeria) recNigeria)
    (by decide)

/-- C6 counterexample: `DRC` is an exact alias-table key of `sam_utils.py`
(mapping to COD), so the claimed matcher order — code match, then alias-table
match — classifies it; but `is_african_country` decides every three-letter
alphabetic candidate at the code stage alone and returns `false` for `DRC`
without consulting the alias table.  The daily path's `row_matches`
classifies the same candidate. -/
theorem c6_counterexample :
    is_african_country "DRC" = false ∧
    sam_all_lookup_keys.contains "DRC" = true ∧
    claim_order_classify_sam "DRC" = true ∧
    row_matches_daily "DRC" "" = true := by
  decide

/-- C6 amended: the daily path's classifier is permissive as claimed — any
candidate containing an alias key of its mapping table (the table includes the
lower-cased ISO3 codes) anywhere classifies; but in `sam_utils.py` every
three-letter alphabetic candidate is decided solely by membership in the ISO3
code set, so the alias table and the substring stage are never consulted for
such candidates. -/
theorem c6_matcher_order_amended :
    (∀ pop cc : String,
      daily_africa_mappings.any (fun kv => containsSub kv.1 (pyLower (pyStrip pop))) = true →
      row_matches_daily pop cc = true) ∧
    (∀ v : String, (pyStrip (pyUpper v)).length = 3 →
      (pyStrip (pyUpper v)).toList.all isPyAlpha = true →
      is_african_country v = sam_iso3_codes.contains (pyStrip (pyUpper v))) := by
  constructor
  · intro pop cc h
    unfold row_matches_daily
    have h3 : daily_africa_mappings.any
        (fun kv => containsSub kv.1 (pyLower (pyStrip pop)) ||
          containsSub kv.1 (pyLower (pyStrip cc))) = true := by
      rw [List.any_eq_true] at h ⊢
      obtain ⟨kv, hmem, hc⟩ := h
      exact ⟨kv, hmem, by rw [hc]; rfl⟩
    simp [h3]
  · intro v hlen halpha
    have hv : (v == "") = false := by
      cases hveq : (v == "") with
      | false => rfl
      | true =>
        have hv0 : v = "" := eq_of_beq hveq
        rw [hv0] at hlen
        exact absurd hlen (by decide)
    have hmem : pyStrip (pyUpper v) ∈ nonCountryTokens → False := by
      intro hm
      simp only [nonCountryTokens, List.mem_cons, List.not_mem_nil, or_false] at hm
      rcases hm with h | h | h | h | h
      · rw [h] at hlen; exact absurd hlen (by decide)
      · rw [h] at hlen; exact absurd hlen (by decide)
      · rw [h] at halpha; exact absurd halpha (by decide)
      · rw [h] at hlen; exact absurd hlen (by decide)
      · rw [h] at hlen; exact absurd hlen (by decide)
    have htok : nonCountryTokens.contains (pyStrip (pyUpper v)) = false := by
      cases hc : nonCountryTokens.contains (pyStrip (pyUpper v)) with
      | false => rfl
      | true => exact absurd (by simpa using hc) hmem
    have h3 : ((pyStrip (pyUpper v)).length == 3 &&
        (pyStrip (pyUpper v)).toList.all isPyAlpha) = true := by
      rw [halpha, hlen]
      rfl
    simp only [is_african_country]
    rw [hv, htok, h3]
    simp

/-- Witness for the amended C6 at concrete candidates. -/
theorem c6_matcher_order_amended_witness :
    row_matches_daily "office in ken city" "" = true ∧
    is_african_country "ZWE" = true :=
  ⟨c6_matcher_order_amended.1 "office in ken city" "" (by decide), by
    have h := c6_matcher_order_amended.2 "ZWE" (by decide) (by decide)
    have e : sam_iso3_codes.contains (pyStrip (pyUpper "ZWE")) = true := by decide
    rw [h, e]⟩

/-- C7: when a chunk has no identifier-like column, the resolved identity is
exactly the synthesized `make_hash` (the truncated SHA-1 digest of the seven
pipe-joined stable fields), and that identity depends only on those seven
fields — in particular resolving twice on byte-identical input yields the
same identity string. -/
theorem c7_identity_resolution (cols : List String) (r1 r2 : ARow)
    (hno : cols.contains "NoticeID" = false)
    (hcand : (normalized_map cols).find? (fun kv => is_id_candidate kv.1) = none)
    (h1 : aget r1 "Title" = aget r2 "Title")
    (h2 : aget r1 "PostedDate" = aget r2 "PostedDate")
    (h3 : aget r1 "Type" = aget r2 "Type")
    (h4 : aget r1 "Link" = aget r2 "Link")
    (h5 : aget r1 "AwardNumber" = aget r2 "AwardNumber")
    (h6 : aget r1 "CountryCode" = aget r2 "CountryCode")
    (h7 : aget r1 "PopCountry" = aget r2 "PopCountry") :
    ensure_notice_id cols r1 = make_hash r1 ∧ make_hash r1 = make_hash r2 := by
  constructor
  · unfold ensure_notice_id
    rw [hno, hcand]
    simp
  · exact make_hash_eq_of_fields h1 h2 h3 h4 h5 h6 h7

/-- Witness for C7 at a concrete schema and row. -/
theorem c7_identity_resolution_witness :
    ensure_notice_id colsNoId arowTitle = make_hash arowTitle ∧
      make_hash arowTitle = make_hash arowTitle :=
  c7_identity_resolution colsNoId arowTitle arowTitle (by decide) (by decide)
    rfl rfl rfl rfl rfl rfl rfl

/-- C8: a record whose resolved identity strips to the empty string (in
particular whitespace-only) or to the literal `nan` token is dropped by all
three write paths before any write: each store is left unchanged and the
outcome is a skip. -/
theorem c8_invalid_identity_dropped (sst : List SRow) (dst bst : List BRow)
    (r : Rec) (v : String) (hv : r.noticeId = some v)
    (hbad : pyStrip v = "" ∨ pyStrip v = "nan") :
    insert_or_update_step sst r = (sst, Outcome.skipped) ∧
    insert_new_rows_step_daily dst r = (dst, Outcome.skipped) ∧
    insert_new_rows_step_boot bst r = (bst, Outcome.skipped) := by
  have hsam : sam_nid r = pyStrip v := by simp [sam_nid, hv]
  have hch : chunk_nid r = pyStrip v := by simp [chunk_nid, resolve_notice_id, hv]
  have hbs : bad_notice_id_sam (sam_nid r) = true := by
    rw [hsam]; rcases hbad with h | h <;> rw [h] <;> decide
  have hbc : bad_notice_id_chunk (chunk_nid r) = true := by
    rw [hch]; rcases hbad with h | h <;> rw [h] <;> decide
  exact ⟨sam_step_bad hbs, daily_step_bad hbc, boot_step_bad hbc⟩

/-- Witness for C8 at a whitespace-only identifier. -/
theorem c8_invalid_identity_dropped_witness :
    insert_or_update_step [srowA] recWsId = ([srowA], Outcome.skipped) ∧
    insert_new_rows_step_daily [browA] recWsId = ([browA], Outcome.skipped) ∧
    insert_new_rows_step_boot [browA] recWsId = ([browA], Outcome.skipped) :=
  c8_invalid_identity_dropped [srowA] [browA] [browA] recWsId "   " rfl
    (Or.inl (by decide))

/-- C9 counterexample: `normalize_posted_date` passes the digit-shaped but
calendar-invalid string `2024-13-45` through unvalidated (its first regex
branch checks only the digit shape), so it can return a garbage date, contrary
to the claim that every non-null result is a canonical calendar date. -/
theorem c9_counterexample :
    normalize_posted_date "2024-13-45" = some "2024-13-45" ∧
    isCalendarDateStr "2024-13-45" = false := by
  decide

/-- C9 amended: date normalization is total — `2024-10-06T12:00:00` normalizes
to `2024-10-06`, `garbage` normalizes to null, and every result is either null
or a string of the `YYYY-MM-DD` digit shape; but digit-shaped inputs are not
validated as calendar dates (see the counterexample). -/
theorem c9_normalize_total_amended :
    normalize_posted_date "2024-10-06T12:00:00" = some "2024-10-06" ∧
    normalize_posted_date "garbage" = none ∧
    ∀ s : String, normalize_posted_date s = none ∨
      ∃ t, normalize_posted_date s = some t ∧ isDateShape t = true := by
  refine ⟨by decide, by decide, ?_⟩
  intro s
  cases h : normalize_posted_date s with
  | none => exact Or.inl rfl
  | some t => exact Or.inr ⟨t, rfl, normalize_posted_date_shape h⟩

/-- C10: a stored row whose stored posted date does not normalize is frozen —
every upsert for that identity through `insert_or_update_batch` reports
`skipped` and leaves the store unchanged, whatever posted date the incoming
record carries. -/
theorem c10_frozen_row (st : List SRow) (r : Rec) (e : SRow)
    (hfind : st.find? (fun t => t.noticeId == sam_nid r) = some e)
    (hnone : normalize_posted_date e.postedDate = none) :
    insert_or_update_step st r = (st, Outcome.skipped) := by
  have hok : ok_update (normalize_posted_date r.postedDate)
      (normalize_posted_date e.postedDate) = false := by
    rw [hnone]
    cases normalize_posted_date r.postedDate <;> rfl
  exact sam_step_skip hfind hok

/-- Witness for C10: the frozen identity skips even a valid incoming date. -/
theorem c10_frozen_row_witness :
    insert_or_update_step [srowFrozen] recFrozenNew = ([srowFrozen], Outcome.skipped) ∧
    normalize_posted_date recFrozenNew.postedDate = some "2024-05-05" :=
  ⟨c10_frozen_row [srowFrozen] recFrozenNew srowFrozen (by decide) (by decide),
    by decide⟩

end SamAfrica
